import Mathlib

/-
Verification of the anythropic protocol-translation gateway.

Shallow embedding of the translation core written in TypeScript:
  - src/converters/stream.ts : OpenAI stream chunks to Claude stream events
    (convertOpenAIStreamToClaude, getFinalStreamEvents, createStreamState)
  - src/converters/constants.ts : Claude request to OpenAI request
    (convertClaudeRequestToOpenAI and helpers)
  - src/converters/error.ts : OpenAI error envelopes to Claude errors
    (handleOpenAIErrorResponse, convertOpenAIErrorToClaude)
  - src/converters/response.ts : usage and finish-reason conversion
    (convertOpenAIUsageToClaude, convertFinishReasonToClaude)
  - src/adapters/kiro.ts : the AWS event stream text scanner
    (feed, the brace matcher and the per-event handlers)

JavaScript conventions used throughout the embedding:
  - optional object fields become Option;
  - a JS truthiness test on an optional string (undefined and "" are falsy)
    is strTruthy; the expression x || d on an optional string is strOr;
  - n || 0 on a number that is always present is the identity (JS 0 is falsy
    and still maps to 0), so it is dropped where the operand is a plain Int;
  - in-place mutation of a state object becomes explicit state passing:
    each imperative procedure returns the list of emitted values together
    with the updated state.
-/

namespace Anythropic

/-- JS truthiness of an optional string: undefined and the empty string are falsy. -/
def strTruthy : Option String → Bool
  | some s => s ≠ ""
  | none => false

/-- The JS expression x || d for an optional string x: a falsy value of x
(undefined or the empty string) falls back to the default d. -/
def strOr (x : Option String) (d : String) : String :=
  match x with
  | some s => if s = "" then d else s
  | none => d

/-- The JS expression s || d for a string that is always present: only the
empty string falls back to the default. -/
def strOrP (s d : String) : String :=
  if s = "" then d else s

/-! ## JSON values

A model of the JSON values produced by the platform builtin JSON.parse.
Numbers are modeled as rationals (no exponent notation; the repository
never exchanges exponent-form numbers). -/

/-- A JSON value. -/
inductive Js where
  | null
  | bool (b : Bool)
  | num (q : Rat)
  | str (s : String)
  | arr (xs : List Js)
  | obj (fields : List (String × Js))

/-- JS truthiness of a JSON value: null, false, 0 and "" are falsy;
every object and array is truthy. -/
def jsTruthy : Js → Bool
  | Js.null => false
  | Js.bool b => b
  | Js.num q => q ≠ 0
  | Js.str s => s ≠ ""
  | Js.arr _ => true
  | Js.obj _ => true

/-- Property read v.k on a JSON value: an object yields the field value when
present and undefined (none) otherwise; primitives box to wrappers without
own fields, so the read yields undefined; arrays have no string-keyed
fields of interest here. Reading a property of null throws, which the
callers below model separately. -/
def jsGet (v : Js) (k : String) : Option Js :=
  match v with
  | Js.obj fields => (fields.find? (fun p => p.1 == k)).map Prod.snd
  | _ => none

/-- JS truthiness of an optional JSON value (undefined is falsy). -/
def jsTruthyOpt : Option Js → Bool
  | some v => jsTruthy v
  | none => false

/-- The JS expression x || d for an optional JSON value. -/
def jsOr (x : Option Js) (d : Js) : Js :=
  match x with
  | some v => if jsTruthy v then v else d
  | none => d

/-- JS strict equality a === b for the values compared by the stream scanner:
value comparison on primitives; reference comparison on objects and arrays,
which is always false between a freshly parsed value and a stored one
(the only comparison the source performs). -/
def jsStrictEq (a b : Js) : Bool :=
  match a, b with
  | Js.null, Js.null => true
  | Js.bool x, Js.bool y => x = y
  | Js.num x, Js.num y => x = y
  | Js.str x, Js.str y => x = y
  | _, _ => false

/-- Left and right brace characters, used instead of brace literals. -/
def lbraceChar : Char := Char.ofNat 123

/-- Right brace character. -/
def rbraceChar : Char := Char.ofNat 125

/-! ### A fueled JSON parser (model of JSON.parse)

Recursive descent over the character list; the fuel argument bounds the
recursion depth and is always supplied large enough (the input length)
that it never runs out on inputs the source feeds it. A parse that fails
or leaves trailing garbage models a JSON.parse exception. -/

/-- Whitespace recognized by JSON. -/
def isJsonWs (c : Char) : Bool :=
  c = ' ' ∨ c = '\n' ∨ c = '\t' ∨ c = '\r'

/-- Drop leading JSON whitespace. -/
def skipWs (cs : List Char) : List Char :=
  cs.dropWhile isJsonWs

/-- Parse the body of a JSON string literal after the opening quote,
handling backslash escapes; returns the characters and the rest after
the closing quote. -/
def parseStringBody : List Char → Option (List Char × List Char)
  | [] => none
  | c :: rest =>
    if c = '"' then some ([], rest)
    else if c = '\\' then
      match rest with
      | [] => none
      | e :: rest2 =>
        let esc : Option Char :=
          if e = '"' then some '"'
          else if e = '\\' then some '\\'
          else if e = '/' then some '/'
          else if e = 'n' then some '\n'
          else if e = 't' then some '\t'
          else if e = 'r' then some '\r'
          else if e = 'b' then some (Char.ofNat 8)
          else if e = 'f' then some (Char.ofNat 12)
          else none
        match esc with
        | some ec =>
          match parseStringBody rest2 with
          | some (body, rest3) => some (ec :: body, rest3)
          | none => none
        | none => none
    else
      match parseStringBody rest with
      | some (body, rest2) => some (c :: body, rest2)
      | none => none

/-- Parse a run of decimal digits. -/
def parseDigits (cs : List Char) : List Char × List Char :=
  match cs with
  | [] => ([], [])
  | c :: rest =>
    if c.isDigit then
      let (ds, rest2) := parseDigits rest
      (c :: ds, rest2)
    else ([], cs)

/-- Numeric value of a digit list. -/
def digitsToNat (ds : List Char) : Nat :=
  ds.foldl (fun acc c => acc * 10 + (c.toNat - 48)) 0

/-- Parse a JSON number (integer part and optional fraction, no exponent). -/
def parseNumber (cs : List Char) : Option (Rat × List Char) :=
  let (neg, cs1) :=
    match cs with
    | c :: rest => if c = '-' then (true, rest) else (false, cs)
    | [] => (false, cs)
  let (intDigits, cs2) := parseDigits cs1
  if intDigits = [] then none
  else
    let intPart : Rat := (digitsToNat intDigits : Int)
    let (value, rest) :=
      match cs2 with
      | c :: cs3 =>
        if c = '.' then
          let (fracDigits, cs4) := parseDigits cs3
          (intPart + (digitsToNat fracDigits : Rat) / ((10 : Rat) ^ fracDigits.length), cs4)
        else (intPart, cs2)
      | [] => (intPart, cs2)
    some (if neg then -value else value, rest)

mutual

/-- Parse one JSON value. -/
def parseValue (fuel : Nat) (cs : List Char) : Option (Js × List Char) :=
  match fuel with
  | 0 => none
  | fuel + 1 =>
    match skipWs cs with
    | [] => none
    | c :: rest =>
      if c = '"' then
        match parseStringBody rest with
        | some (body, rest2) => some (Js.str (String.mk body), rest2)
        | none => none
      else if c = lbraceChar then
        parseObjectFields fuel (skipWs rest) true
      else if c = '[' then
        parseArrayElems fuel (skipWs rest) true
      else if c = 't' then
        match rest with
        | 'r' :: 'u' :: 'e' :: rest2 => some (Js.bool true, rest2)
        | _ => none
      else if c = 'f' then
        match rest with
        | 'a' :: 'l' :: 's' :: 'e' :: rest2 => some (Js.bool false, rest2)
        | _ => none
      else if c = 'n' then
        match rest with
        | 'u' :: 'l' :: 'l' :: rest2 => some (Js.null, rest2)
        | _ => none
      else
        match parseNumber (c :: rest) with
        | some (q, rest2) => some (Js.num q, rest2)
        | none => none

/-- Parse the fields of a JSON object after the opening brace; the flag
marks the first field (no preceding comma expected). -/
def parseObjectFields (fuel : Nat) (cs : List Char) (first : Bool) : Option (Js × List Char) :=
  match fuel with
  | 0 => none
  | fuel + 1 =>
    match skipWs cs with
    | [] => none
    | c :: rest =>
      if c = rbraceChar then some (Js.obj [], rest)
      else
        let csKey :=
          if first then some (c :: rest)
          else if c = ',' then some (skipWs rest) else none
        match csKey with
        | none => none
        | some cs2 =>
          match cs2 with
          | q :: cs3 =>
            if q = '"' then
              match parseStringBody cs3 with
              | some (keyChars, cs4) =>
                match skipWs cs4 with
                | colon :: cs5 =>
                  if colon = ':' then
                    match parseValue fuel cs5 with
                    | some (v, cs6) =>
                      match parseObjectFields fuel cs6 false with
                      | some (Js.obj fields, cs7) =>
                        some (Js.obj ((String.mk keyChars, v) :: fields), cs7)
                      | _ => none
                    | none => none
                  else none
                | [] => none
              | none => none
            else none
          | [] => none

/-- Parse the elements of a JSON array after the opening bracket. -/
def parseArrayElems (fuel : Nat) (cs : List Char) (first : Bool) : Option (Js × List Char) :=
  match fuel with
  | 0 => none
  | fuel + 1 =>
    match skipWs cs with
    | [] => none
    | c :: rest =>
      if c = ']' then some (Js.arr [], rest)
      else
        let csElem :=
          if first then some (c :: rest)
          else if c = ',' then some (skipWs rest) else none
        match csElem with
        | none => none
        | some cs2 =>
          match parseValue fuel cs2 with
          | some (v, cs3) =>
            match parseArrayElems fuel cs3 false with
            | some (Js.arr xs, cs4) => some (Js.arr (v :: xs), cs4)
            | _ => none
          | none => none

end

/-- JSON.parse on a whole string: the parse must consume everything but
trailing whitespace; none models a thrown SyntaxError. -/
def jsonParse (s : String) : Option Js :=
  match parseValue (s.length + 1) s.data with
  | some (v, rest) => if skipWs rest = [] then some v else none
  | none => none

/-! ### JSON serialization (model of JSON.stringify) -/

/-- Escape a character for a JSON string literal. -/
def escapeJsonChar (c : Char) : List Char :=
  if c = '"' then ['\\', '"']
  else if c = '\\' then ['\\', '\\']
  else if c = '\n' then ['\\', 'n']
  else if c = '\t' then ['\\', 't']
  else if c = '\r' then ['\\', 'r']
  else [c]

/-- Serialize a string to a JSON string literal. -/
def stringifyStr (s : String) : String :=
  String.mk ('"' :: (s.data.flatMap escapeJsonChar) ++ ['"'])

/-- Serialize a rational that is an integer the way JS prints it; the
repository only ever round-trips integers through stringify. -/
def stringifyNum (q : Rat) : String :=
  if q.den = 1 then toString q.num else toString q

mutual

/-- JSON.stringify on a JSON value. -/
def stringifyJs : Js → String
  | Js.null => "null"
  | Js.bool b => if b then "true" else "false"
  | Js.num q => stringifyNum q
  | Js.str s => stringifyStr s
  | Js.arr xs => "[" ++ stringifyJsList xs ++ "]"
  | Js.obj fields => String.mk [lbraceChar] ++ stringifyJsFields fields ++ String.mk [rbraceChar]

/-- Comma-separated serialization of array elements. -/
def stringifyJsList : List Js → String
  | [] => ""
  | [x] => stringifyJs x
  | x :: rest => stringifyJs x ++ "," ++ stringifyJsList rest

/-- Comma-separated serialization of object fields. -/
def stringifyJsFields : List (String × Js) → String
  | [] => ""
  | [(k, v)] => stringifyStr k ++ ":" ++ stringifyJs v
  | (k, v) :: rest => stringifyStr k ++ ":" ++ stringifyJs v ++ "," ++ stringifyJsFields rest

end

/-! ## Usage accounting

Types from src/types/openai.ts and src/types/claude.ts, and the two copies
of convertOpenAIUsageToClaude (src/converters/stream.ts and
src/converters/response.ts). -/

/-- prompt_tokens_details of the OpenAI ChatUsage shape. -/
structure PromptTokensDetails where
  cached_tokens : Int
  audio_tokens : Int
  cache_creation_tokens : Option Int
deriving Repr, DecidableEq

/-- The OpenAI ChatUsage shape (completion_tokens_details is never read by
the converters and is omitted). -/
structure ChatUsage where
  prompt_tokens : Int
  completion_tokens : Int
  total_tokens : Int
  web_search_count : Option Int
  prompt_tokens_details : Option PromptTokensDetails
deriving Repr, DecidableEq

/-- The server_tool_use counter of the Claude usage shape. -/
structure ServerToolUseUsage where
  web_search_requests : Int
deriving Repr, DecidableEq

/-- The Claude usage shape (fields the converters assign). -/
structure ClaudeUsage where
  input_tokens : Int
  output_tokens : Int
  cache_read_input_tokens : Option Int
  cache_creation_input_tokens : Option Int
  server_tool_use : Option ServerToolUseUsage
deriving Repr, DecidableEq

/-- The Claude usage value with only the two zeroed token counters. -/
def zeroClaudeUsage : ClaudeUsage :=
  { input_tokens := 0, output_tokens := 0, cache_read_input_tokens := none,
    cache_creation_input_tokens := none, server_tool_use := none }

/-- convertOpenAIUsageToClaude from src/converters/stream.ts: absent usage
yields the zeroed counters; otherwise input_tokens is prompt_tokens minus
the cached tokens of the detail breakdown (0 when absent), output_tokens is
completion_tokens, and the cache counters surface when the detail breakdown
is present. -/
def convertOpenAIUsageToClaude (usage : Option ChatUsage) : ClaudeUsage :=
  match usage with
  | none => zeroClaudeUsage
  | some u =>
    let base : ClaudeUsage :=
      { input_tokens :=
          u.prompt_tokens -
            (match u.prompt_tokens_details with
             | some d => d.cached_tokens
             | none => 0),
        output_tokens := u.completion_tokens,
        cache_read_input_tokens := none,
        cache_creation_input_tokens := none,
        server_tool_use := none }
    match u.prompt_tokens_details with
    | some d =>
      { base with
        cache_read_input_tokens := some d.cached_tokens,
        cache_creation_input_tokens := some (d.cache_creation_tokens.getD 0) }
    | none => base

/-- convertOpenAIUsageToClaude from src/converters/response.ts: identical to
the stream copy except that a truthy web_search_count additionally surfaces
as server_tool_use.web_search_requests. -/
def convertOpenAIUsageToClaudeResponse (usage : Option ChatUsage) : ClaudeUsage :=
  let base := convertOpenAIUsageToClaude usage
  match usage with
  | none => base
  | some u =>
    match u.web_search_count with
    | some n =>
      if n ≠ 0 then
        { base with server_tool_use := some { web_search_requests := n } }
      else base
    | none => base

/-- convertFinishReasonToClaude from src/converters/response.ts: the four
known OpenAI finish reasons map to the Claude stop reasons; an unrecognized
non-empty reason passes through verbatim and an empty one defaults to
end_turn. -/
def convertFinishReasonToClaude (finishReason : String) : String :=
  if finishReason = "stop" then "end_turn"
  else if finishReason = "length" then "max_tokens"
  else if finishReason = "tool_calls" then "tool_use"
  else if finishReason = "content_filter" then "stop_sequence"
  else strOrP finishReason "end_turn"

/-! ## The stream translator state machine

Types from src/types/conversion.ts and src/types/openai.ts, and the
functions of src/converters/stream.ts. The sparse JS arrays
contentTexts / thinkingTexts / toolCalls become association lists; the
impure Date.now() in the message id becomes the explicit now parameter. -/

/-- One entry of StreamConversionState.toolCalls. -/
structure ToolCallState where
  index : Nat
  id : String
  name : String
  input : String
deriving Repr, DecidableEq

/-- StreamConversionState from src/types/conversion.ts. -/
structure StreamConversionState where
  messageId : String
  sentMessageStart : Bool
  currentContentIndex : Int
  currentContentType : Option String
  contentTexts : List (Int × String)
  thinkingTexts : List (Int × String)
  toolCalls : List (Nat × ToolCallState)
  sentThinkingSignature : Bool
  thinkingSignature : Option String
deriving Repr, DecidableEq

/-- Read a sparse string array entry; absent entries read as "" (the source
only ever appends to an entry it has initialized). -/
def assocGetD (m : List (Int × String)) (k : Int) : String :=
  ((m.find? (fun p => p.1 == k)).map Prod.snd).getD ""

/-- Write a sparse string array entry. -/
def assocSet (m : List (Int × String)) (k : Int) (v : String) : List (Int × String) :=
  match m with
  | [] => [(k, v)]
  | p :: rest => if p.1 = k then (k, v) :: rest else p :: assocSet rest k v

/-- Look up the tool-call accumulator at a stream index. -/
def toolGet (m : List (Nat × ToolCallState)) (k : Nat) : Option ToolCallState :=
  (m.find? (fun p => p.1 == k)).map Prod.snd

/-- Install the tool-call accumulator at a stream index. -/
def toolSet (m : List (Nat × ToolCallState)) (k : Nat) (v : ToolCallState) :
    List (Nat × ToolCallState) :=
  match m with
  | [] => [(k, v)]
  | p :: rest => if p.1 = k then (k, v) :: rest else p :: toolSet rest k v

/-- Append to the raw-argument buffer of the accumulator at a stream index. -/
def toolAppendInput (m : List (Nat × ToolCallState)) (k : Nat) (args : String) :
    List (Nat × ToolCallState) :=
  match m with
  | [] => []
  | p :: rest =>
    if p.1 = k then (p.1, { p.2 with input := p.2.input ++ args }) :: rest
    else p :: toolAppendInput rest k args

/-- The delta payload of a content_block_delta event. -/
inductive ClaudeDeltaPayload where
  | thinkingDelta (thinking : String)
  | textDelta (text : String)
  | inputJsonDelta (partialJson : String)
deriving Repr, DecidableEq

/-- The message payload of a message_start event. The constant fields the
source always sets the same way (type "message", role "assistant", empty
content, null stop_reason and stop_sequence) are elided. -/
structure MessageStartPayload where
  id : String
  model : String
  usage : ClaudeUsage
deriving Repr, DecidableEq

/-- The content_block payload of a content_block_start event. A tool_use
block start carries id, name, the constant empty input object (elided) and
the optional thought signature. -/
structure ToolUseBlockStart where
  id : String
  name : String
  signature : Option String
deriving Repr, DecidableEq

/-- The content_block payload of a content_block_start event. -/
inductive ContentBlockInit where
  | thinking (thinking : String)
  | text (text : String)
  | toolUse (block : ToolUseBlockStart)
deriving Repr, DecidableEq

/-- A Claude stream event as emitted by the stream translator. The
message_delta constructor carries the delta.stop_reason, the constant null
delta.stop_sequence and the optional usage snapshot. -/
inductive ClaudeStreamEvent where
  | messageStart (message : MessageStartPayload)
  | ping
  | contentBlockStart (index : Int) (contentBlock : ContentBlockInit)
  | contentBlockDelta (index : Int) (delta : ClaudeDeltaPayload)
  | contentBlockStop (index : Int)
  | messageDelta (stopReason : String) (stopSequence : Option String) (usage : Option ClaudeUsage)
  | messageStop
deriving Repr, DecidableEq

/-- One element of delta.tool_calls in an OpenAI stream chunk.
thoughtSignature stands for extra_content?.google?.thought_signature. -/
structure StreamToolCallDelta where
  index : Option Nat
  id : Option String
  functionName : Option String
  functionArguments : Option String
  thoughtSignature : Option String
deriving Repr, DecidableEq

/-- The delta of one choice in an OpenAI stream chunk. -/
structure StreamChoiceDelta where
  role : Option String
  content : Option String
  reasoning_content : Option String
  tool_calls : Option (List StreamToolCallDelta)
deriving Repr, DecidableEq

/-- One choice of an OpenAI stream chunk. -/
structure StreamChoice where
  index : Nat
  delta : StreamChoiceDelta
  finish_reason : Option String
deriving Repr, DecidableEq

/-- An OpenAI chat-completions stream chunk. -/
structure ChatCompletionsStreamResponse where
  id : String
  model : String
  choices : List StreamChoice
  usage : Option ChatUsage
deriving Repr, DecidableEq

/-- The body of the inner for loop of convertOpenAIStreamToClaude over
delta.tool_calls: capture the Gemini thought signature from tool call 0,
open a new tool_use block when the stream index is new (closing the
previous block, with the duplicated close the source performs), then emit
the incremental argument delta. -/
def processToolCallDelta (tc : StreamToolCallDelta) (st : StreamConversionState) :
    List ClaudeStreamEvent × StreamConversionState :=
  let idx := tc.index.getD 0
  -- Capture thought signature from first tool call (Gemini)
  let st :=
    if idx = 0 ∧ strTruthy tc.thoughtSignature ∧ ¬ strTruthy st.thinkingSignature then
      { st with thinkingSignature := tc.thoughtSignature }
    else st
  -- Initialize tool call if new
  let (startEvents, st) :=
    if (toolGet st.toolCalls idx).isNone then
      let stops1 :=
        if st.currentContentType ≠ none ∧ st.currentContentType ≠ some "tool_use" then
          [ClaudeStreamEvent.contentBlockStop st.currentContentIndex]
        else []
      -- Close previous block
      let stops2 :=
        if 0 ≤ st.currentContentIndex then
          [ClaudeStreamEvent.contentBlockStop st.currentContentIndex]
        else []
      let newIndex := st.currentContentIndex + 1
      let acc : ToolCallState :=
        { index := idx,
          id := strOr tc.id s!"tool_{idx}",
          name := strOr tc.functionName "",
          input := "" }
      let st :=
        { st with
          currentContentIndex := newIndex,
          currentContentType := some "tool_use",
          toolCalls := toolSet st.toolCalls idx acc }
      -- Add signature to first tool call only
      let signature :=
        if idx = 0 ∧ strTruthy st.thinkingSignature then st.thinkingSignature else none
      (stops1 ++ stops2 ++
        [ClaudeStreamEvent.contentBlockStart newIndex
          (ContentBlockInit.toolUse { id := acc.id, name := acc.name, signature := signature })],
        st)
    else ([], st)
  -- Send tool arguments delta
  if strTruthy tc.functionArguments then
    let args := tc.functionArguments.getD ""
    let st := { st with toolCalls := toolAppendInput st.toolCalls idx args }
    (startEvents ++
      [ClaudeStreamEvent.contentBlockDelta st.currentContentIndex
        (ClaudeDeltaPayload.inputJsonDelta args)],
      st)
  else (startEvents, st)

/-- The for loop of convertOpenAIStreamToClaude over delta.tool_calls. -/
def processToolCallDeltas :
    List StreamToolCallDelta → StreamConversionState →
    List ClaudeStreamEvent × StreamConversionState
  | [], st => ([], st)
  | tc :: rest, st =>
    let (e1, st1) := processToolCallDelta tc st
    let (e2, st2) := processToolCallDeltas rest st1
    (e1 ++ e2, st2)

/-- The body of the for loop of convertOpenAIStreamToClaude over
choices: the reasoning branch, the text branch (else-if), and the
tool-call branch (a separate if). Each of the reasoning and text branches
first emits the transition close of the source (a stop when a block of a
different type is open) and then, when opening a new block, the
duplicated "close previous block" stop, the block start, the buffer
update and the delta event. -/
def processChoice (choice : StreamChoice) (st : StreamConversionState) :
    List ClaudeStreamEvent × StreamConversionState :=
  let delta := choice.delta
  -- Handle reasoning/thinking content, else handle text content
  let (events1, st) :=
    if strTruthy delta.reasoning_content then
      let rc := delta.reasoning_content.getD ""
      let stops1 :=
        if st.currentContentType ≠ none ∧ st.currentContentType ≠ some "thinking" then
          [ClaudeStreamEvent.contentBlockStop st.currentContentIndex]
        else []
      let (startEvents, st) :=
        if st.currentContentType ≠ some "thinking" then
          -- Close previous block
          let stops2 :=
            if 0 ≤ st.currentContentIndex then
              [ClaudeStreamEvent.contentBlockStop st.currentContentIndex]
            else []
          -- Start new thinking block
          let newIndex := st.currentContentIndex + 1
          let st :=
            { st with
              currentContentIndex := newIndex,
              currentContentType := some "thinking",
              thinkingTexts := assocSet st.thinkingTexts newIndex "" }
          (stops2 ++ [ClaudeStreamEvent.contentBlockStart newIndex (ContentBlockInit.thinking "")],
            st)
        else ([], st)
      let st :=
        { st with
          thinkingTexts :=
            assocSet st.thinkingTexts st.currentContentIndex
              (assocGetD st.thinkingTexts st.currentContentIndex ++ rc) }
      (stops1 ++ startEvents ++
        [ClaudeStreamEvent.contentBlockDelta st.currentContentIndex
          (ClaudeDeltaPayload.thinkingDelta rc)],
        st)
    else if strTruthy delta.content then
      let tc := delta.content.getD ""
      let stops1 :=
        if st.currentContentType ≠ none ∧ st.currentContentType ≠ some "text" then
          [ClaudeStreamEvent.contentBlockStop st.currentContentIndex]
        else []
      let (startEvents, st) :=
        if st.currentContentType ≠ some "text" then
          -- Close previous block
          let stops2 :=
            if 0 ≤ st.currentContentIndex then
              [ClaudeStreamEvent.contentBlockStop st.currentContentIndex]
            else []
          -- Start new text block
          let newIndex := st.currentContentIndex + 1
          let st :=
            { st with
              currentContentIndex := newIndex,
              currentContentType := some "text",
              contentTexts := assocSet st.contentTexts newIndex "" }
          (stops2 ++ [ClaudeStreamEvent.contentBlockStart newIndex (ContentBlockInit.text "")],
            st)
        else ([], st)
      let st :=
        { st with
          contentTexts :=
            assocSet st.contentTexts st.currentContentIndex
              (assocGetD st.contentTexts st.currentContentIndex ++ tc) }
      (stops1 ++ startEvents ++
        [ClaudeStreamEvent.contentBlockDelta st.currentContentIndex
          (ClaudeDeltaPayload.textDelta tc)],
        st)
    else ([], st)
  -- Handle tool calls
  match delta.tool_calls with
  | some (tc :: tcs) =>
    let (events2, st) := processToolCallDeltas (tc :: tcs) st
    (events1 ++ events2, st)
  | _ => (events1, st)

/-- The for loop of convertOpenAIStreamToClaude over choices. -/
def processChoices :
    List StreamChoice → StreamConversionState →
    List ClaudeStreamEvent × StreamConversionState
  | [], st => ([], st)
  | c :: cs, st =>
    let (e1, st1) := processChoice c st
    let (e2, st2) := processChoices cs st1
    (e1 ++ e2, st2)

/-- convertOpenAIStreamToClaude from src/converters/stream.ts: generate the
message id on first use (Date.now() becomes the now parameter), emit
message_start and ping exactly once per state, then process every choice. -/
def convertOpenAIStreamToClaude (now : Nat) (openAIResponse : ChatCompletionsStreamResponse)
    (st : StreamConversionState) : List ClaudeStreamEvent × StreamConversionState :=
  -- Generate message_id if not exists
  let st := if st.messageId = "" then { st with messageId := s!"msg_{now}" } else st
  -- Send message_start (only once), then ping
  let (startEvents, st) :=
    if st.sentMessageStart = false then
      let st := { st with sentMessageStart := true }
      ([ClaudeStreamEvent.messageStart
          { id := st.messageId,
            model := openAIResponse.model,
            usage :=
              match openAIResponse.usage with
              | some u => convertOpenAIUsageToClaude (some u)
              | none => zeroClaudeUsage },
        ClaudeStreamEvent.ping],
        st)
    else ([], st)
  let (choiceEvents, st) := processChoices openAIResponse.choices st
  (startEvents ++ choiceEvents, st)

/-- getFinalStreamEvents from src/converters/stream.ts: close the last open
content block when one exists, then message_delta with the constant
end_turn stop reason and the converted usage when one was supplied, then
message_stop. -/
def getFinalStreamEvents (st : StreamConversionState) (usage : Option ChatUsage) :
    List ClaudeStreamEvent :=
  -- Close last content block
  (if 0 ≤ st.currentContentIndex then
    [ClaudeStreamEvent.contentBlockStop st.currentContentIndex]
  else []) ++
  -- Send message_delta with stop reason and usage, then message_stop
  [ClaudeStreamEvent.messageDelta "end_turn" none
    (usage.map (fun u => convertOpenAIUsageToClaude (some u))),
   ClaudeStreamEvent.messageStop]

/-- createStreamState from src/converters/stream.ts. -/
def createStreamState : StreamConversionState :=
  { messageId := "",
    sentMessageStart := false,
    currentContentIndex := -1,
    currentContentType := none,
    contentTexts := [],
    thinkingTexts := [],
    toolCalls := [],
    sentThinkingSignature := false,
    thinkingSignature := none }

/-- The chunk-forwarding loop of the caller: feed every chunk of the
upstream stream, in order, through one StreamConversionState. -/
def processChunks (now : Nat) :
    List ChatCompletionsStreamResponse → StreamConversionState →
    List ClaudeStreamEvent × StreamConversionState
  | [], st => ([], st)
  | c :: cs, st =>
    let (e1, st1) := convertOpenAIStreamToClaude now c st
    let (e2, st2) := processChunks now cs st1
    (e1 ++ e2, st2)

/-! ## The request translator

Types from src/types/claude.ts and src/types/openai.ts, and
convertClaudeRequestToOpenAI with its helpers from
src/converters/constants.ts. -/

/-- The source field of an image content block. The field called type in
the source (base64 or url) keeps its name. -/
structure ClaudeImageSource where
  type : String
  media_type : Option String
  data : Option String
  url : Option String
deriving Repr, DecidableEq

/-- The input field of a tool_use block: the source uses a string verbatim
and serializes an object with JSON.stringify; objInput carries the
serialization of the object. -/
inductive ToolUseInput where
  | strInput (s : String)
  | objInput (serialized : String)
deriving Repr, DecidableEq

mutual

/-- A Claude content block (the ClaudeContent shape of src/types/claude.ts):
a type tag plus the optional fields of every variant. -/
inductive ClaudeContent where
  | mk
    (type : String)
    (text : Option String)
    (thinking : Option String)
    (source : Option ClaudeImageSource)
    (id : Option String)
    (name : Option String)
    (input : Option ToolUseInput)
    (content : Option ClaudeToolResultContent)
    (tool_use_id : Option String)
    (signature : Option String)

/-- The content field of a tool_result block: a plain string or a nested
array of content blocks. -/
inductive ClaudeToolResultContent where
  | str (s : String)
  | arr (cs : List ClaudeContent)

end

/-- The type tag of a content block. -/
def ClaudeContent.type : ClaudeContent → String
  | ClaudeContent.mk t _ _ _ _ _ _ _ _ _ => t

/-- The text field of a content block. -/
def ClaudeContent.text : ClaudeContent → Option String
  | ClaudeContent.mk _ x _ _ _ _ _ _ _ _ => x

/-- The thinking field of a content block. -/
def ClaudeContent.thinking : ClaudeContent → Option String
  | ClaudeContent.mk _ _ x _ _ _ _ _ _ _ => x

/-- The source field of a content block. -/
def ClaudeContent.source : ClaudeContent → Option ClaudeImageSource
  | ClaudeContent.mk _ _ _ x _ _ _ _ _ _ => x

/-- The id field of a content block. -/
def ClaudeContent.id : ClaudeContent → Option String
  | ClaudeContent.mk _ _ _ _ x _ _ _ _ _ => x

/-- The name field of a content block. -/
def ClaudeContent.name : ClaudeContent → Option String
  | ClaudeContent.mk _ _ _ _ _ x _ _ _ _ => x

/-- The input field of a content block. -/
def ClaudeContent.input : ClaudeContent → Option ToolUseInput
  | ClaudeContent.mk _ _ _ _ _ _ x _ _ _ => x

/-- The content field of a content block. -/
def ClaudeContent.content : ClaudeContent → Option ClaudeToolResultContent
  | ClaudeContent.mk _ _ _ _ _ _ _ x _ _ => x

/-- The tool_use_id field of a content block. -/
def ClaudeContent.tool_use_id : ClaudeContent → Option String
  | ClaudeContent.mk _ _ _ _ _ _ _ _ x _ => x

/-- The signature field of a content block. -/
def ClaudeContent.signature : ClaudeContent → Option String
  | ClaudeContent.mk _ _ _ _ _ _ _ _ _ x => x

/-- An OpenAI typed content part (the MessageContent shape): a text part or
an image_url part. -/
inductive MessageContent where
  | text (text : String)
  | imageUrl (url : String)
deriving Repr, DecidableEq

/-- An OpenAI tool call on an assistant message. The constant type
"function" is elided; thought_signature stands for
extra_content.google.thought_signature. -/
structure ToolCall where
  id : String
  name : String
  arguments : String
  thought_signature : Option String
deriving Repr, DecidableEq

/-- The content of an OpenAI message: a plain string, a list of typed
parts, or null. -/
inductive OpenAIMessageContent where
  | str (s : String)
  | parts (ps : List MessageContent)
  | null
deriving Repr, DecidableEq

/-- The thinking side-channel field on an OpenAI message. -/
structure ThinkingField where
  content : String
  signature : Option String
deriving Repr, DecidableEq

/-- An OpenAI chat message as built by the request translator. -/
structure OpenAIMessage where
  role : String
  content : OpenAIMessageContent
  tool_calls : Option (List ToolCall)
  tool_call_id : Option String
  thinking : Option ThinkingField
deriving Repr, DecidableEq

/-- The ConvertedContent record of src/converters/constants.ts. -/
structure ConvertedContent where
  content : Option (List MessageContent)
  toolCalls : List ToolCall
  toolMessages : List OpenAIMessage
  thinking : Option ThinkingField
deriving Repr, DecidableEq

/-- The text and image cases of the loop in convertClaudeContentArray: the
typed content part one block pushes onto messageContents, if any. -/
def messageContentOf (c : ClaudeContent) : Option MessageContent :=
  if c.type = "text" then
    match c.text with
    | some t => if t = "" then none else some (MessageContent.text t)
    | none => none
  else if c.type = "image" then
    match c.source with
    | some src =>
      if src.type = "base64" ∧ strTruthy src.data then
        let mediaType := strOr src.media_type "image/jpeg"
        some (MessageContent.imageUrl ("data:" ++ mediaType ++ ";base64," ++ src.data.getD ""))
      else some (MessageContent.imageUrl (strOr src.url ""))
    | none => none
  else none

/-- The tool_use case of the loop in convertClaudeContentArray: the tool
call one block pushes onto toolCalls, produced only when id and name are
truthy and input is present; a string input is used verbatim, an object
input serialized; a truthy block signature rides along as the
vendor-extension field. -/
def toolCallOf (c : ClaudeContent) : Option ToolCall :=
  if c.type = "tool_use" then
    if strTruthy c.id ∧ strTruthy c.name ∧ c.input.isSome then
      some
        { id := c.id.getD "",
          name := c.name.getD "",
          arguments :=
            match c.input with
            | some (ToolUseInput.strInput s) => s
            | some (ToolUseInput.objInput ser) => ser
            | none => "",
          thought_signature := if strTruthy c.signature then c.signature else none }
    else none
  else none

/-- The thinking case of the loop in convertClaudeContentArray: the last
block with truthy thinking text wins (each occurrence overwrites
result.thinking). -/
def thinkingOf (cs : List ClaudeContent) : Option ThinkingField :=
  cs.foldl
    (fun acc c =>
      if c.type = "thinking" ∧ strTruthy c.thinking then
        some { content := c.thinking.getD "", signature := c.signature }
      else acc)
    none

/-- The content field of the recursive call
convertClaudeContentArray(content.content, "tool") performed for a nested
tool_result array. That field depends only on the text and image blocks of
the nested array (the recursively accumulated toolCalls and toolMessages of
the nested call are discarded by the caller, which reads only .content), so
it is computed directly here, which also makes the recursion ground out. -/
def nestedContent (cs : List ClaudeContent) : Option (List MessageContent) :=
  let mc := cs.filterMap messageContentOf
  if mc.length > 0 then some mc else none

/-- The tool_result case of the loop in convertClaudeContentArray: the
role-tool message one block pushes onto toolMessages, correlated by
tool_use_id (empty string when the id is falsy). -/
def toolMessageOf (c : ClaudeContent) : Option OpenAIMessage :=
  if c.type = "tool_result" then
    let toolContent : OpenAIMessageContent :=
      match c.content with
      | some (ClaudeToolResultContent.str s) => OpenAIMessageContent.str s
      | some (ClaudeToolResultContent.arr cs) =>
        match nestedContent cs with
        | some ps => OpenAIMessageContent.parts ps
        | none => OpenAIMessageContent.null
      | none => OpenAIMessageContent.null
    some
      { role := "tool",
        content := toolContent,
        tool_calls := none,
        tool_call_id := some (strOr c.tool_use_id ""),
        thinking := none }
  else none

/-- convertClaudeContentArray from src/converters/constants.ts. The loop
pushes at most one value per block onto each of four independent
accumulators, so each accumulator equals a filterMap (respectively a
fold for the overwritten thinking field) over the blocks in order; the
content field is set only when messageContents is non-empty. The role
parameter of the source is never read. -/
def convertClaudeContentArray (contents : List ClaudeContent) (_role : String) :
    ConvertedContent :=
  let messageContents := contents.filterMap messageContentOf
  { content := if messageContents.length > 0 then some messageContents else none,
    toolCalls := contents.filterMap toolCallOf,
    toolMessages := contents.filterMap toolMessageOf,
    thinking := thinkingOf contents }

/-- The content of a Claude message: the two shapes the translator
handles (a plain string or an array of content blocks). -/
inductive ClaudeMessageContent where
  | str (s : String)
  | arr (cs : List ClaudeContent)

/-- A Claude message. -/
structure ClaudeMessage where
  role : String
  content : ClaudeMessageContent

/-- Copy the thinking signature onto the first tool call when that call
does not already carry a truthy vendor-extension signature. -/
def patchFirstSignature (tcs : List ToolCall) (sig : Option String) : List ToolCall :=
  match tcs with
  | [] => []
  | tc :: rest =>
    if strTruthy tc.thought_signature then tc :: rest
    else { tc with thought_signature := sig } :: rest

/-- The content/tool_call message pushed for a Claude message with array
content: role, converted content (null when none), the tool calls (with
the thinking signature copied onto the first one when the message carries
a signed thinking block and at least one tool call), and the thinking
side-channel field. -/
def mainMessage (role : String) (result : ConvertedContent) : OpenAIMessage :=
  let toolCalls :=
    match result.thinking with
    | some th =>
      if strTruthy th.signature ∧ result.toolCalls.length > 0 then
        patchFirstSignature result.toolCalls th.signature
      else result.toolCalls
    | none => result.toolCalls
  { role := role,
    content :=
      match result.content with
      | some ps => OpenAIMessageContent.parts ps
      | none => OpenAIMessageContent.null,
    tool_calls := some toolCalls,
    tool_call_id := none,
    thinking := result.thinking }

/-- The loop body of convertClaudeMessagesToOpenAI for one Claude message:
a string content becomes one plain message; an array content is converted
and emitted as tool-result messages first when there are tool results but
no tool calls, then the content/tool_call message when there is content or
a tool call, then the tool-result messages when there are also tool
calls. -/
def convertOneClaudeMessage (msg : ClaudeMessage) : List OpenAIMessage :=
  match msg.content with
  | ClaudeMessageContent.str s =>
    [{ role := msg.role, content := OpenAIMessageContent.str s,
       tool_calls := none, tool_call_id := none, thinking := none }]
  | ClaudeMessageContent.arr cs =>
    let result := convertClaudeContentArray cs msg.role
    let hasToolCalls : Bool := decide (result.toolCalls.length > 0)
    let hasContent : Bool :=
      (match result.content with
       | some l => decide (l.length > 0)
       | none => false) || decide (result.toolCalls.length > 0)
    let hasToolMessages : Bool := decide (result.toolMessages.length > 0)
    (if hasToolMessages && !hasToolCalls then result.toolMessages else []) ++
    (if hasContent then [mainMessage msg.role result] else []) ++
    (if hasToolMessages && hasToolCalls then result.toolMessages else [])

/-- convertClaudeMessagesToOpenAI from src/converters/constants.ts: the
concatenation of the per-message emissions in order. -/
def convertClaudeMessagesToOpenAI : List ClaudeMessage → List OpenAIMessage
  | [] => []
  | m :: ms => convertOneClaudeMessage m ++ convertClaudeMessagesToOpenAI ms

/-- convertClaudeSystemToOpenAI from src/converters/constants.ts: collect
the truthy text blocks into one system message with typed parts; no
message when none. -/
def convertClaudeSystemToOpenAI (system : List ClaudeContent) : List OpenAIMessage :=
  if system.length > 0 then
    let content :=
      system.filterMap (fun item =>
        if item.type = "text" ∧ strTruthy item.text then
          some (MessageContent.text (item.text.getD ""))
        else none)
    if content.length > 0 then
      [{ role := "system", content := OpenAIMessageContent.parts content,
         tool_calls := none, tool_call_id := none, thinking := none }]
    else []
  else []

/-- A Claude tool definition (the fields the converter reads). -/
structure ClaudeInputSchema where
  type : String
  properties : Option Js
  required : Option (List String)

/-- A Claude tool definition. -/
structure ClaudeTool where
  name : String
  description : Option String
  input_schema : Option ClaudeInputSchema

/-- The parameters object of an OpenAI function-shaped tool: the literal
empty object when the Claude tool has no input_schema, otherwise type
(default object), properties (default empty object) and the required list
when it is non-empty. -/
structure OpenAIFunctionParams where
  type : String
  properties : Js
  required : Option (List String)

/-- An OpenAI function-shaped tool definition (constant type "function"
elided; none parameters stands for the literal empty object). -/
structure OpenAITool where
  name : String
  description : String
  parameters : Option OpenAIFunctionParams

/-- convertClaudeToolsToOpenAI from src/converters/constants.ts. -/
def convertClaudeToolsToOpenAI (claudeTools : List ClaudeTool) : List OpenAITool :=
  claudeTools.map (fun tool =>
    { name := tool.name,
      description := strOr tool.description "",
      parameters :=
        match tool.input_schema with
        | some schema =>
          some
            { type := strOrP schema.type "object",
              properties := jsOr schema.properties (Js.obj []),
              required :=
                match schema.required with
                | some req => if req.length > 0 then some req else none
                | none => none }
        | none => none })

/-- The tool_choice value of a Claude request: absent (or any other falsy
value), a string, or an object with a type field and an optional name
field. -/
inductive ClaudeToolChoice where
  | undef
  | str (s : String)
  | obj (type : Option String) (name : Option String)
deriving Repr, DecidableEq

/-- The tool_choice value of an OpenAI request: a mode string or a forced
function selection. -/
inductive OpenAIToolChoice where
  | str (s : String)
  | function (name : String)
deriving Repr, DecidableEq

/-- convertClaudeToolChoiceToOpenAI from src/converters/constants.ts: a
falsy value (absent or the empty string) gives auto; the string any gives
required and every other string is returned unchanged; an object of type
tool with a truthy name gives the forced-function shape; an object of type
any gives required; every other object gives auto. -/
def convertClaudeToolChoiceToOpenAI (toolChoice : ClaudeToolChoice) : OpenAIToolChoice :=
  match toolChoice with
  | ClaudeToolChoice.undef => OpenAIToolChoice.str "auto"
  | ClaudeToolChoice.str s =>
    if s = "" then OpenAIToolChoice.str "auto"
    else if s = "any" then OpenAIToolChoice.str "required"
    else OpenAIToolChoice.str s
  | ClaudeToolChoice.obj ty name =>
    if ty = some "tool" then
      match name with
      | some n => if n ≠ "" then OpenAIToolChoice.function n else OpenAIToolChoice.str "auto"
      | none => OpenAIToolChoice.str "auto"
    else if ty = some "any" then OpenAIToolChoice.str "required"
    else if ty = some "auto" then OpenAIToolChoice.str "auto"
    else OpenAIToolChoice.str "auto"

/-- A Claude request (the ClaudeAnyContentRequest shape; the sampling
parameters are rationals standing for JS numbers). The TypeScript
interface declares messages as mandatory, but the runtime value comes
from a parsed JSON body that may omit the field, so messages is an
Option: none models an absent messages field reaching the translator as
undefined. -/
structure ClaudeAnyContentRequest where
  model : String
  messages : Option (List ClaudeMessage)
  system : Option (List ClaudeContent)
  max_tokens : Option Int
  max_completion_tokens : Option Int
  temperature : Option Rat
  top_p : Option Rat
  tools : Option (List ClaudeTool)
  tool_choice : ClaudeToolChoice
  stream : Option Bool
  stop_sequences : Option (List String)

/-- An OpenAI request as built by the request translator
(stream_options_include_usage stands for stream_options.include_usage). -/
structure OpenAIRequest where
  model : String
  messages : List OpenAIMessage
  stream : Option Bool
  max_completion_tokens : Option Int
  temperature : Option Rat
  top_p : Option Rat
  tools : Option (List OpenAITool)
  tool_choice : Option OpenAIToolChoice
  stop : Option (List String)
  stream_options_include_usage : Option Bool

/-- convertClaudeRequestToOpenAI from src/converters/constants.ts, rendered
field by field: the imperative construction assigns each output field at
most twice (max_completion_tokens overwrites the value copied from
max_tokens) and performs no validation. The only way it can fail is that
when the messages field is absent, the for-of loop inside
convertClaudeMessagesToOpenAI iterates over undefined and throws a
TypeError, so the partially built request is discarded and none is
produced; with messages present, the messages list of the result is the
converted system messages (when the system list is present and non-empty)
followed by the converted messages. -/
def convertClaudeRequestToOpenAI (claudeRequest : ClaudeAnyContentRequest) :
    Option OpenAIRequest :=
  let hasTools : Bool :=
    match claudeRequest.tools with
    | some ts => decide (ts.length > 0)
    | none => false
  match claudeRequest.messages with
  | none => none
  | some msgs =>
    some
      { model := claudeRequest.model,
        stream := claudeRequest.stream,
        max_completion_tokens :=
          match claudeRequest.max_completion_tokens, claudeRequest.max_tokens with
          | some v, _ => some v
          | none, some v => some v
          | none, none => none,
        temperature := claudeRequest.temperature,
        top_p := claudeRequest.top_p,
        tools :=
          if hasTools then some (convertClaudeToolsToOpenAI (claudeRequest.tools.getD []))
          else none,
        tool_choice :=
          if hasTools then some (convertClaudeToolChoiceToOpenAI claudeRequest.tool_choice)
          else none,
        stop :=
          match claudeRequest.stop_sequences with
          | some ss => if ss.length > 0 then some ss else none
          | none => none,
        stream_options_include_usage :=
          if claudeRequest.stream = some true then some true else none,
        messages :=
          (match claudeRequest.system with
           | some s => if s.length > 0 then convertClaudeSystemToOpenAI s else []
           | none => []) ++
          convertClaudeMessagesToOpenAI msgs }

/-! ## The error translator

convertOpenAIErrorToClaude and handleOpenAIErrorResponse from
src/converters/error.ts. The translated error fields hold whatever JSON
values the source assigns (strings in every case the taxonomy produces);
the outer constant type "error" wrapper is elided. -/

/-- The error object of a Claude error response; param and code are present
only on the single-object path. -/
structure ClaudeErrorInfo where
  type : Js
  message : Js
  param : Option Js
  code : Option Js

/-- A Claude error response (type "error" wrapper elided). -/
structure ClaudeErrorResponse where
  error : ClaudeErrorInfo

/-- Property read base.k where base may be undefined: reading a property of
undefined or of null throws (none); otherwise the read yields the field
value or undefined. -/
def jsAccess (base : Option Js) (k : String) : Option (Option Js) :=
  match base with
  | none => none
  | some Js.null => none
  | some v => some (jsGet v k)

/-- convertOpenAIErrorTypeToClaude from src/converters/error.ts: each of
the eight taxonomy names maps to itself and every other value passes
through verbatim (the switch is the identity). -/
def convertOpenAIErrorTypeToClaude (openAIType : Js) : Js :=
  match openAIType with
  | Js.str s =>
    if s = "invalid_request_error" then Js.str "invalid_request_error"
    else if s = "authentication_error" then Js.str "authentication_error"
    else if s = "permission_error" then Js.str "permission_error"
    else if s = "not_found_error" then Js.str "not_found_error"
    else if s = "request_too_large" then Js.str "request_too_large"
    else if s = "rate_limit_error" then Js.str "rate_limit_error"
    else if s = "api_error" then Js.str "api_error"
    else if s = "overloaded_error" then Js.str "overloaded_error"
    else Js.str s
  | v => v

/-- convertOpenAIErrorToClaude from src/converters/error.ts on a parsed
JSON body; none models a thrown TypeError (reading a property of undefined
or null), which the caller catches. -/
def convertOpenAIErrorToClaude (openAIError : Js) : Option ClaudeErrorResponse :=
  match openAIError with
  | Js.arr xs =>
    match jsAccess xs.head? "error" with
    | none => none
    | some errField =>
      match jsAccess errField "message" with
      | none => none
      | some msgField =>
        some
          { error :=
              { type := convertOpenAIErrorTypeToClaude (Js.str "api_error"),
                message := jsOr msgField (Js.str "Unknown error"),
                param := none,
                code := none } }
  | v =>
    match jsAccess (some v) "error" with
    | none => none
    | some errField =>
      match jsAccess errField "type", jsAccess errField "message",
            jsAccess errField "param", jsAccess errField "code" with
      | some tyField, some msgField, some paramField, some codeField =>
        some
          { error :=
              { type := convertOpenAIErrorTypeToClaude (jsOr tyField (Js.str "api_error")),
                message := jsOr msgField (Js.str "Unknown error"),
                param := some (jsOr paramField (Js.str "")),
                code := some (jsOr codeField (Js.str "")) } }
      | _, _, _, _ => none

/-- Whether the pattern occurs in the haystack starting at its head. -/
def startsWithChars : List Char → List Char → Bool
  | _, [] => true
  | [], _ :: _ => false
  | h :: hs, p :: ps => h = p && startsWithChars hs ps

/-- The position of the first occurrence of the pattern (String.indexOf /
String.includes). -/
def findSubstr : List Char → List Char → Option Nat
  | hay, pat =>
    if startsWithChars hay pat then some 0
    else
      match hay with
      | [] => none
      | _ :: rest => (findSubstr rest pat).map (· + 1)

/-- JS String.includes. -/
def strIncludes (s sub : String) : Bool :=
  (findSubstr s.data sub.data).isSome

/-- The HTTP error response the translator reads: the content-type header
(null when absent), the body text, and the status line parts. -/
structure HttpErrorResponse where
  contentType : Option String
  body : String
  status : Nat
  statusText : String

/-- The api_error carrying the raw HTTP status line. -/
def statusLineApiError (response : HttpErrorResponse) : ClaudeErrorResponse :=
  let status := response.status
  let statusText := response.statusText
  { error :=
      { type := Js.str "api_error",
        message := Js.str (s!"HTTP {status}: {statusText}"),
        param := none,
        code := none } }

/-- handleOpenAIErrorResponse from src/converters/error.ts: a JSON-typed
body is parsed and converted, degrading to the status-line api_error when
parsing or conversion throws; a text/plain body becomes an api_error
carrying the body text; everything else becomes the status-line
api_error. -/
def handleOpenAIErrorResponse (response : HttpErrorResponse) : ClaudeErrorResponse :=
  match response.contentType with
  | some ct =>
    if strIncludes ct "application/json" then
      match jsonParse response.body with
      | some v =>
        match convertOpenAIErrorToClaude v with
        | some r => r
        | none => statusLineApiError response
      | none => statusLineApiError response
    else if strIncludes ct "text/plain" then
      { error :=
          { type := Js.str "api_error",
            message := Js.str response.body,
            param := none,
            code := none } }
    else statusLineApiError response
  | none => statusLineApiError response

/-! ## The proprietary stream scanner

AwsEventStreamParser from src/adapters/kiro.ts. Byte chunks are modeled as
the strings they decode to (the TextDecoder step); the impure generated
tool-call id (Date.now() and Math.random()) is an opaque placeholder, used
only when an event carries no toolUseId. -/

/-- An open or finalized tool call of the scanner. -/
structure ParserToolCall where
  id : String
  name : String
  arguments : String
deriving Repr, DecidableEq

/-- The scanner state: the raw text buffer, the last content payload seen
(for de-duplication), the currently open tool call and the finalized
ones. -/
structure AwsStreamScanState where
  buffer : String
  lastContent : Option Js
  currentToolCall : Option ParserToolCall
  toolCalls : List ParserToolCall

/-- The initial scanner state (also the reset() state). -/
def initAwsScanState : AwsStreamScanState :=
  { buffer := "", lastContent := none, currentToolCall := none, toolCalls := [] }

/-- An event surfaced by feed. -/
inductive ScanEvent where
  | content (data : Js)
  | usage (data : Js)
  | contextUsage (data : Js)

/-- The EVENT_PATTERNS table: the leading substring of each recognized
embedded object and its event type, in priority order. -/
def eventPatterns : List (List Char × String) :=
  [(lbraceChar :: "\"content\":".data, "content"),
   (lbraceChar :: "\"name\":".data, "tool_start"),
   (lbraceChar :: "\"input\":".data, "tool_input"),
   (lbraceChar :: "\"stop\":".data, "tool_stop"),
   (lbraceChar :: "\"followupPrompt\":".data, "followup"),
   (lbraceChar :: "\"usage\":".data, "usage"),
   (lbraceChar :: "\"contextUsagePercentage\":".data, "context_usage")]

/-- Find the earliest buffer offset matching any known leading pattern
(earliest position wins; the table order breaks ties, which cannot occur
between these patterns). -/
def findEarliestPattern (buffer : List Char) : Option (Nat × String) :=
  eventPatterns.foldl
    (fun best (p : List Char × String) =>
      match findSubstr buffer p.1 with
      | some pos =>
        match best with
        | some (bestPos, _) => if pos < bestPos then some (pos, p.2) else best
        | none => some (pos, p.2)
      | none => best)
    none

/-- The scanning loop of _findMatchingBrace from the given index: track
brace nesting depth, skipping characters inside quoted strings and
honoring backslash escapes; yields the index of the closing brace of
depth zero. -/
def braceScan : List Char → Nat → Int → Bool → Bool → Option Nat
  | [], _, _, _, _ => none
  | c :: rest, i, braceCount, inString, escapeNext =>
    if escapeNext then braceScan rest (i + 1) braceCount inString false
    else if c = '\\' ∧ inString then braceScan rest (i + 1) braceCount inString true
    else if c = '"' then braceScan rest (i + 1) braceCount (!inString) escapeNext
    else if ¬ inString then
      if c = lbraceChar then braceScan rest (i + 1) (braceCount + 1) inString escapeNext
      else if c = rbraceChar then
        if braceCount - 1 = 0 then some i
        else braceScan rest (i + 1) (braceCount - 1) inString escapeNext
      else braceScan rest (i + 1) braceCount inString escapeNext
    else braceScan rest (i + 1) braceCount inString escapeNext

/-- The helper _findMatchingBrace from src/adapters/kiro.ts: the absolute index of the
closing brace matching the opening brace at startPos, or none when the
object is incomplete (or startPos does not hold an opening brace). -/
def findMatchingBrace (text : List Char) (startPos : Nat) : Option Nat :=
  match text.drop startPos with
  | [] => none
  | c :: rest =>
    if c = lbraceChar then
      (braceScan (c :: rest) 0 0 false false).map (· + startPos)
    else none

/-- The placeholder for _generateToolCallId (Date.now() and Math.random()
in the source; opaque, only used when an event carries no toolUseId). -/
def generatedToolCallId : String := "tool_generated"

/-- The string or serialized-object form of a truthy input field
(String(v) on primitives, JSON.stringify on objects and arrays). -/
def inputFieldString (data : Js) : String :=
  match jsGet data "input" with
  | some v =>
    if jsTruthy v then
      match v with
      | Js.obj _ => stringifyJs v
      | Js.arr _ => stringifyJs v
      | Js.str s => s
      | Js.num q => stringifyNum q
      | Js.bool b => if b then "true" else "false"
      | Js.null => ""
    else ""
  | none => ""

/-- The helper _finalizeToolCall from src/adapters/kiro.ts: re-parse and re-serialize
the accumulated argument text, substituting the empty object on a blank
buffer or a parse failure, then move the call to the finalized list. -/
def finalizeToolCall (st : AwsStreamScanState) : AwsStreamScanState :=
  match st.currentToolCall with
  | none => st
  | some tc =>
    let args :=
      if tc.arguments.trim ≠ "" then
        match jsonParse tc.arguments with
        | some parsed => stringifyJs parsed
        | none => String.mk [lbraceChar, rbraceChar]
      else String.mk [lbraceChar, rbraceChar]
    { st with
      toolCalls := st.toolCalls ++ [{ tc with arguments := args }],
      currentToolCall := none }

/-- The handler _processContentEvent from src/adapters/kiro.ts: drop falsy content and
followupPrompt carriers, suppress a payload identical (by strict equality)
to the immediately preceding one, otherwise record and surface it. -/
def processContentEvent (data : Js) (st : AwsStreamScanState) :
    Option ScanEvent × AwsStreamScanState :=
  match jsGet data "content" with
  | none => (none, st)
  | some content =>
    if ¬ jsTruthy content then (none, st)
    else if jsTruthyOpt (jsGet data "followupPrompt") then (none, st)
    else if (match st.lastContent with
             | some lastV => jsStrictEq content lastV
             | none => false) then (none, st)
    else (some (ScanEvent.content content), { st with lastContent := some content })

/-- The handler _processToolStartEvent: finalize a previously open call, open a new one
capturing id, name and any initial input, and finalize immediately on an
explicit stop flag. -/
def processToolStartEvent (data : Js) (st : AwsStreamScanState) :
    Option ScanEvent × AwsStreamScanState :=
  let st := if st.currentToolCall.isSome then finalizeToolCall st else st
  let inputStr := inputFieldString data
  let newCall : ParserToolCall :=
    { id :=
        match jsGet data "toolUseId" with
        | some (Js.str s) => if s = "" then generatedToolCallId else s
        | some v => if jsTruthy v then stringifyJs v else generatedToolCallId
        | none => generatedToolCallId,
      name :=
        match jsGet data "name" with
        | some (Js.str s) => s
        | _ => "",
      arguments := inputStr }
  let st := { st with currentToolCall := some newCall }
  let st := if jsTruthyOpt (jsGet data "stop") then finalizeToolCall st else st
  (none, st)

/-- The handler _processToolInputEvent: append the input fragment to the open call. -/
def processToolInputEvent (data : Js) (st : AwsStreamScanState) :
    Option ScanEvent × AwsStreamScanState :=
  match st.currentToolCall with
  | some tc =>
    (none, { st with currentToolCall := some { tc with arguments := tc.arguments ++ inputFieldString data } })
  | none => (none, st)

/-- The handler _processToolStopEvent: finalize the open call on an explicit stop flag. -/
def processToolStopEvent (data : Js) (st : AwsStreamScanState) :
    Option ScanEvent × AwsStreamScanState :=
  if st.currentToolCall.isSome ∧ jsTruthyOpt (jsGet data "stop") then
    (none, finalizeToolCall st)
  else (none, st)

/-- The dispatcher _processEvent from src/adapters/kiro.ts: dispatch on the pattern type
(a followup match has no handler and yields nothing). -/
def processScanEvent (data : Js) (eventType : String) (st : AwsStreamScanState) :
    Option ScanEvent × AwsStreamScanState :=
  if eventType = "content" then processContentEvent data st
  else if eventType = "tool_start" then processToolStartEvent data st
  else if eventType = "tool_input" then processToolInputEvent data st
  else if eventType = "tool_stop" then processToolStopEvent data st
  else if eventType = "usage" then
    (some (ScanEvent.usage (jsOr (jsGet data "usage") data)), st)
  else if eventType = "context_usage" then
    (some (ScanEvent.contextUsage (jsOr (jsGet data "contextUsagePercentage") (Js.num 0))), st)
  else (none, st)

/-- The while loop of feed: repeatedly locate the earliest pattern, wait
when its object is incomplete, otherwise cut the object out of the buffer
and dispatch it (a JSON parse failure consumes the prefix and emits
nothing). Every iteration removes at least one buffer character, so a fuel
of one more than the buffer length never runs out. -/
def feedLoop : Nat → AwsStreamScanState → List ScanEvent → List ScanEvent × AwsStreamScanState
  | 0, st, acc => (acc, st)
  | fuel + 1, st, acc =>
    match findEarliestPattern st.buffer.data with
    | none => (acc, st)
    | some (pos, eventType) =>
      match findMatchingBrace st.buffer.data pos with
      | none => (acc, st)
      | some jsonEnd =>
        let jsonStr := String.mk ((st.buffer.data.drop pos).take (jsonEnd + 1 - pos))
        let st := { st with buffer := String.mk (st.buffer.data.drop (jsonEnd + 1)) }
        match jsonParse jsonStr with
        | some data =>
          let (ev, st) := processScanEvent data eventType st
          feedLoop fuel st (acc ++ (match ev with | some e => [e] | none => []))
        | none => feedLoop fuel st acc

/-- feed from src/adapters/kiro.ts: append the decoded chunk to the buffer
and drain every complete embedded object. -/
def feed (st : AwsStreamScanState) (chunk : String) : List ScanEvent × AwsStreamScanState :=
  let st := { st with buffer := st.buffer ++ chunk }
  feedLoop (st.buffer.length + 1) st []

/-! ## Derived predicates and concrete inputs -/

/-- Whether a stream event is a message_start or the ping. -/
def isStartOrPing : ClaudeStreamEvent → Bool
  | ClaudeStreamEvent.messageStart _ => true
  | ClaudeStreamEvent.ping => true
  | _ => false

/-- Whether a stream event is a content_block_stop. -/
def isBlockStopEvent : ClaudeStreamEvent → Bool
  | ClaudeStreamEvent.contentBlockStop _ => true
  | _ => false

/-- Whether a stream event is a message_delta. -/
def isMessageDeltaEvent : ClaudeStreamEvent → Bool
  | ClaudeStreamEvent.messageDelta _ _ _ => true
  | _ => false

/-- A tool_use block that the converter actually turns into a provider
tool call: the mandatory id and name are truthy and the input is present
(the tool_use variant of the data model always carries all three). -/
def isWellFormedToolUse (c : ClaudeContent) : Bool :=
  c.type == "tool_use" && strTruthy c.id && strTruthy c.name && c.input.isSome

/-- A text content block. -/
def textBlock (t : String) : ClaudeContent :=
  ClaudeContent.mk "text" (some t) none none none none none none none none

/-- A thinking content block with an optional continuation signature. -/
def thinkingBlock (t : String) (sig : Option String) : ClaudeContent :=
  ClaudeContent.mk "thinking" none (some t) none none none none none none sig

/-- A tool_use content block. -/
def toolUseBlock (id name : String) (input : ToolUseInput) : ClaudeContent :=
  ClaudeContent.mk "tool_use" none none none (some id) (some name) (some input) none none none

/-- A tool_result content block. -/
def toolResultBlock (tuid : String) (content : Option ClaudeToolResultContent) : ClaudeContent :=
  ClaudeContent.mk "tool_result" none none none none none none content (some tuid) none

/-- A stream chunk with one choice carrying a plain-text delta. -/
def c1TextChunk : ChatCompletionsStreamResponse :=
  { id := "chatcmpl-1", model := "gpt-4",
    choices := [{ index := 0,
                  delta := { role := some "assistant", content := some "hi",
                             reasoning_content := none, tool_calls := none },
                  finish_reason := none }],
    usage := none }

/-- A stream chunk with one choice carrying a reasoning delta. -/
def c1ReasoningChunk : ChatCompletionsStreamResponse :=
  { id := "chatcmpl-1", model := "gpt-4",
    choices := [{ index := 0,
                  delta := { role := none, content := none,
                             reasoning_content := some "think", tool_calls := none },
                  finish_reason := none }],
    usage := none }

/-- A stream chunk opening one tool call at stream index 0. -/
def c2ToolChunk : ChatCompletionsStreamResponse :=
  { id := "chatcmpl-2", model := "gpt-4",
    choices := [{ index := 0,
                  delta := { role := some "assistant", content := none,
                             reasoning_content := none,
                             tool_calls := some
                               [{ index := some 0, id := some "call_1",
                                  functionName := some "get_weather",
                                  functionArguments := some "\x7b\x7d",
                                  thoughtSignature := none }] },
                  finish_reason := none }],
    usage := none }

/-- A terminal stream chunk whose choice carries finish_reason
tool_calls and an empty delta. -/
def c2FinishChunk : ChatCompletionsStreamResponse :=
  { id := "chatcmpl-2", model := "gpt-4",
    choices := [{ index := 0,
                  delta := { role := none, content := none,
                             reasoning_content := none, tool_calls := none },
                  finish_reason := some "tool_calls" }],
    usage := none }

/-- A Claude request whose messages list is present but empty. -/
def c3Request : ClaudeAnyContentRequest :=
  { model := "m", messages := some [], system := none, max_tokens := none,
    max_completion_tokens := none, temperature := none, top_p := none,
    tools := none, tool_choice := ClaudeToolChoice.undef, stream := none,
    stop_sequences := none }

/-- A Claude request whose messages field is absent. -/
def c3AbsentRequest : ClaudeAnyContentRequest :=
  { model := "m", messages := none, system := none, max_tokens := none,
    max_completion_tokens := none, temperature := none, top_p := none,
    tools := none, tool_choice := ClaudeToolChoice.undef, stream := none,
    stop_sequences := none }

/-- A concrete tool_result block answering a prior tool call. -/
def c5ResultBlock : ClaudeContent :=
  toolResultBlock "toolu_prev" (some (ClaudeToolResultContent.str "42"))

/-- A concrete new tool_use block. -/
def c5UseBlock : ClaudeContent :=
  toolUseBlock "toolu_new" "search" (ToolUseInput.objInput "\x7b\"q\":\"x\"\x7d")

/-- A content array mixing a tool_result block with a new tool_use block. -/
def c5MixedBlocks : List ClaudeContent := [c5ResultBlock, c5UseBlock]

/-- A content array with a tool_result block and user text but no tool_use
block. -/
def c5ResultOnlyBlocks : List ClaudeContent := [c5ResultBlock, textBlock "thanks"]

/-- The first half of the split-read scanner input. -/
def c6Chunk1 : String := "\x7b\"content\":\"Hel"

/-- The second half of the split-read scanner input followed by the
replayed duplicate object. -/
def c6Chunk2 : String := "lo\"\x7d\x7b\"content\":\"Hello\"\x7d"

/-- The cached-token detail breakdown with ten cached tokens. -/
def c7Details : PromptTokensDetails :=
  { cached_tokens := 10, audio_tokens := 0, cache_creation_tokens := none }

/-- A provider usage report of one hundred prompt tokens, ten of them
cached. -/
def c7ChatUsage : ChatUsage :=
  { prompt_tokens := 100, completion_tokens := 7, total_tokens := 107,
    web_search_count := none, prompt_tokens_details := some c7Details }

/-- A first stream chunk that carries a usage report. -/
def c8UsageChunk : ChatCompletionsStreamResponse :=
  { id := "chatcmpl-8", model := "gpt-4",
    choices := [],
    usage := some { prompt_tokens := 100, completion_tokens := 10, total_tokens := 110,
                    web_search_count := none, prompt_tokens_details := none } }

/-- An upstream error response with a text/plain body. -/
def c9PlainResponse : HttpErrorResponse :=
  { contentType := some "text/plain; charset=utf-8",
    body := "upstream says no",
    status := 503, statusText := "Service Unavailable" }

/-- An upstream error response with no content-type header. -/
def c9NoTypeResponse : HttpErrorResponse :=
  { contentType := none, body := "whatever",
    status := 502, statusText := "Bad Gateway" }

/-- A Claude message whose content array holds only thinking blocks. -/
def c10ThinkingMessage : ClaudeMessage :=
  { role := "assistant",
    content := ClaudeMessageContent.arr
      [thinkingBlock "private chain of thought" (some "sig-abc")] }

/-! ## Helper lemmas about the stream translator -/

/-- A content_block_start is neither a message_start nor the ping. -/
@[simp] theorem isStartOrPing_blockStart (i : Int) (b : ContentBlockInit) :
    isStartOrPing (ClaudeStreamEvent.contentBlockStart i b) = false := rfl

/-- A content_block_delta is neither a message_start nor the ping. -/
@[simp] theorem isStartOrPing_blockDelta (i : Int) (d : ClaudeDeltaPayload) :
    isStartOrPing (ClaudeStreamEvent.contentBlockDelta i d) = false := rfl

/-- A content_block_stop is neither a message_start nor the ping. -/
@[simp] theorem isStartOrPing_blockStop (i : Int) :
    isStartOrPing (ClaudeStreamEvent.contentBlockStop i) = false := rfl

/-- Processing one tool-call delta emits only content-block events. -/
theorem processToolCallDelta_no_startOrPing (tc : StreamToolCallDelta)
    (st : StreamConversionState) :
    ((processToolCallDelta tc st).1.countP isStartOrPing) = 0 := by
  unfold processToolCallDelta
  repeat' split <;>
    (try simp_all [List.countP_append, List.countP_cons]) <;> aesop

/-- Processing one tool-call delta does not change sentMessageStart. -/
theorem processToolCallDelta_sent (tc : StreamToolCallDelta)
    (st : StreamConversionState) :
    (processToolCallDelta tc st).2.sentMessageStart = st.sentMessageStart := by
  unfold processToolCallDelta
  repeat' split <;> simp_all

/-- Processing a tool-call delta list emits only content-block events. -/
theorem processToolCallDeltas_no_startOrPing (tcs : List StreamToolCallDelta)
    (st : StreamConversionState) :
    ((processToolCallDeltas tcs st).1.countP isStartOrPing) = 0 := by
  induction tcs generalizing st with
  | nil => rfl
  | cons tc rest ih =>
    simp only [processToolCallDeltas, List.countP_append]
    rw [processToolCallDelta_no_startOrPing, ih]

/-- Membership form of the previous lemma. -/
theorem processToolCallDeltas_mem_no_startOrPing (tcs : List StreamToolCallDelta)
    (st : StreamConversionState) :
    ∀ a ∈ (processToolCallDeltas tcs st).1, isStartOrPing a = false := by
  intro a ha
  have h := processToolCallDeltas_no_startOrPing tcs st
  rw [List.countP_eq_zero] at h
  simpa using h a ha

/-- Processing a tool-call delta list does not change sentMessageStart. -/
theorem processToolCallDeltas_sent (tcs : List StreamToolCallDelta)
    (st : StreamConversionState) :
    (processToolCallDeltas tcs st).2.sentMessageStart = st.sentMessageStart := by
  induction tcs generalizing st with
  | nil => rfl
  | cons tc rest ih =>
    simp only [processToolCallDeltas]
    rw [ih, processToolCallDelta_sent]

/-- Processing one choice emits only content-block events. -/
theorem processChoice_no_startOrPing (c : StreamChoice) (st : StreamConversionState) :
    ((processChoice c st).1.countP isStartOrPing) = 0 := by
  unfold processChoice
  repeat' split <;>
    (try simp_all [List.countP_append, List.countP_cons,
      processToolCallDeltas_no_startOrPing]) <;>
    (try (intro a ha
          rcases ha with ha | ha <;>
            first
              | exact processToolCallDeltas_mem_no_startOrPing _ _ a ha
              | aesop))

/-- Processing one choice does not change sentMessageStart. -/
theorem processChoice_sent (c : StreamChoice) (st : StreamConversionState) :
    (processChoice c st).2.sentMessageStart = st.sentMessageStart := by
  unfold processChoice
  repeat' split <;> simp_all [processToolCallDeltas_sent]

/-- Processing the choice list emits only content-block events. -/
theorem processChoices_no_startOrPing (cs : List StreamChoice) (st : StreamConversionState) :
    ((processChoices cs st).1.countP isStartOrPing) = 0 := by
  induction cs generalizing st with
  | nil => rfl
  | cons c rest ih =>
    simp only [processChoices, List.countP_append]
    rw [processChoice_no_startOrPing, ih]

/-- Processing the choice list does not change sentMessageStart. -/
theorem processChoices_sent (cs : List StreamChoice) (st : StreamConversionState) :
    (processChoices cs st).2.sentMessageStart = st.sentMessageStart := by
  induction cs generalizing st with
  | nil => rfl
  | cons c rest ih =>
    simp only [processChoices]
    rw [ih, processChoice_sent]

/-! ## The claims -/

/-- C1: the claim says every block transition emits exactly one
content_block_stop for the previously open block, with start/stop pairs
strictly nested and never two stops for the same block. The code violates
this: on the stream [text delta chunk, reasoning delta chunk] the
transition from the open text block at index 0 to the thinking block at
index 1 emits TWO content_block_stop events for index 0 (the transition
close and, immediately after it, the duplicated close-previous-block
close), so the stop for block 0 is emitted twice. -/
theorem c1_transition_emits_double_stop :
    (processChunks 0 [c1TextChunk, c1ReasoningChunk] createStreamState).1 =
      [ClaudeStreamEvent.messageStart { id := "msg_0", model := "gpt-4", usage := zeroClaudeUsage },
       ClaudeStreamEvent.ping,
       ClaudeStreamEvent.contentBlockStart 0 (ContentBlockInit.text ""),
       ClaudeStreamEvent.contentBlockDelta 0 (ClaudeDeltaPayload.textDelta "hi"),
       ClaudeStreamEvent.contentBlockStop 0,
       ClaudeStreamEvent.contentBlockStop 0,
       ClaudeStreamEvent.contentBlockStart 1 (ContentBlockInit.thinking ""),
       ClaudeStreamEvent.contentBlockDelta 1 (ClaudeDeltaPayload.thinkingDelta "think")] ∧
    ((processChunks 0 [c1TextChunk, c1ReasoningChunk] createStreamState).1.count
      (ClaudeStreamEvent.contentBlockStop 0)) = 2 := by
  constructor <;> rfl

/-- C2 (amended): finalization closes the last open block when one exists
(its stop is the first event, and no stop is emitted when no block is
open), then emits exactly one message_delta whose stop reason is always
end_turn (the upstream finish_reason is never consulted; the state tracks
no stop reason) with the converted usage snapshot exactly when one was
supplied, then exactly one message_stop as the final event. -/
theorem c2_finalization_shape (st : StreamConversionState) (usage : Option ChatUsage) :
    (0 ≤ st.currentContentIndex →
      (getFinalStreamEvents st usage).head? =
        some (ClaudeStreamEvent.contentBlockStop st.currentContentIndex)) ∧
    (st.currentContentIndex < 0 →
      (getFinalStreamEvents st usage).countP isBlockStopEvent = 0) ∧
    (getFinalStreamEvents st usage).countP isMessageDeltaEvent = 1 ∧
    (∀ r sq u, ClaudeStreamEvent.messageDelta r sq u ∈ getFinalStreamEvents st usage →
      r = "end_turn" ∧ sq = none ∧
      u = usage.map (fun x => convertOpenAIUsageToClaude (some x))) ∧
    (getFinalStreamEvents st usage).getLast? = some ClaudeStreamEvent.messageStop ∧
    (getFinalStreamEvents st usage).countP
      (fun e => e == ClaudeStreamEvent.messageStop) = 1 := by
  unfold getFinalStreamEvents
  by_cases h : 0 ≤ st.currentContentIndex <;>
    simp [h, isBlockStopEvent, isMessageDeltaEvent, not_le.mpr, lt_iff_not_le]

/-- C2 witness: applying the finalization-shape theorem to the fresh state
(no open block) and no usage. -/
theorem c2_finalization_shape_witness :
    (getFinalStreamEvents createStreamState none).countP isBlockStopEvent = 0 ∧
    (getFinalStreamEvents createStreamState none).getLast? =
      some ClaudeStreamEvent.messageStop :=
  ⟨(c2_finalization_shape createStreamState none).2.1 (by decide),
   (c2_finalization_shape createStreamState none).2.2.2.2.1⟩

/-- C2 counterexample: the claim says the message_delta carries the
terminal stop reason of the stream, end_turn only when the upstream
provided none. On the stream [tool-call chunk, finish_reason tool_calls
chunk] the terminal stop reason is tool_calls, whose Claude form (per the
stop-reason mapping of the response translator) is tool_use; finalization
nevertheless emits end_turn. -/
theorem c2_counterexample :
    convertFinishReasonToClaude "tool_calls" = "tool_use" ∧
    getFinalStreamEvents
      (processChunks 0 [c2ToolChunk, c2FinishChunk] createStreamState).2 none =
      [ClaudeStreamEvent.contentBlockStop 0,
       ClaudeStreamEvent.messageDelta "end_turn" none none,
       ClaudeStreamEvent.messageStop] ∧
    ("end_turn" : String) ≠ "tool_use" := by
  refine ⟨rfl, rfl, by decide⟩

/-- C7: in both copies of convertOpenAIUsageToClaude, a usage report with
the cached-token detail breakdown translates to input_tokens equal to
prompt_tokens minus cached_tokens and output_tokens equal to
completion_tokens, and an absent usage report translates to the zeroed
counters. -/
theorem c7_usage_arithmetic :
    (∀ (u : ChatUsage) (d : PromptTokensDetails), u.prompt_tokens_details = some d →
      (convertOpenAIUsageToClaude (some u)).input_tokens = u.prompt_tokens - d.cached_tokens ∧
      (convertOpenAIUsageToClaude (some u)).output_tokens = u.completion_tokens ∧
      (convertOpenAIUsageToClaudeResponse (some u)).input_tokens =
        u.prompt_tokens - d.cached_tokens ∧
      (convertOpenAIUsageToClaudeResponse (some u)).output_tokens = u.completion_tokens) ∧
    convertOpenAIUsageToClaude none = zeroClaudeUsage ∧
    convertOpenAIUsageToClaudeResponse none = zeroClaudeUsage ∧
    zeroClaudeUsage.input_tokens = 0 ∧ zeroClaudeUsage.output_tokens = 0 := by
  refine ⟨?_, rfl, rfl, rfl, rfl⟩
  intro u d h
  unfold convertOpenAIUsageToClaudeResponse convertOpenAIUsageToClaude
  rcases hw : u.web_search_count with _ | n
  · simp [h, hw]
  · by_cases hn : n = 0 <;> simp [h, hw, hn]

/-- C7 witness: one hundred prompt tokens with ten cached give ninety
input tokens. -/
theorem c7_usage_arithmetic_witness :
    (convertOpenAIUsageToClaude (some c7ChatUsage)).input_tokens = 90 ∧
    (convertOpenAIUsageToClaude (some c7ChatUsage)).output_tokens = 7 := by
  have h := c7_usage_arithmetic.1 c7ChatUsage c7Details rfl
  exact ⟨by rw [h.1]; decide, by rw [h.2.1]; decide⟩

/-- C8 (amended): from a state that has not sent message_start, processing
any chunk emits message_start followed by the ping as the first two
events, where the message_start usage is zeroed exactly when the chunk
carries no usage report (otherwise it is the converted usage of the
chunk), and these are the only such events; the resulting state always has
sentMessageStart set, and from a state that has sent message_start no
message_start or ping is ever emitted again. -/
theorem c8_message_start_once (now : Nat) (chunk : ChatCompletionsStreamResponse)
    (st : StreamConversionState) :
    (st.sentMessageStart = false →
      ∃ p : MessageStartPayload,
        (convertOpenAIStreamToClaude now chunk st).1.take 2 =
          [ClaudeStreamEvent.messageStart p, ClaudeStreamEvent.ping] ∧
        p.usage = (match chunk.usage with
                   | some u => convertOpenAIUsageToClaude (some u)
                   | none => zeroClaudeUsage) ∧
        (chunk.usage = none → p.usage = zeroClaudeUsage) ∧
        (convertOpenAIStreamToClaude now chunk st).1.countP isStartOrPing = 2) ∧
    (st.sentMessageStart = true →
      (convertOpenAIStreamToClaude now chunk st).1.countP isStartOrPing = 0) ∧
    (convertOpenAIStreamToClaude now chunk st).2.sentMessageStart = true := by
  unfold convertOpenAIStreamToClaude
  constructor
  · intro hs
    refine ⟨{ id := if st.messageId = "" then s!"msg_{now}" else st.messageId,
              model := chunk.model,
              usage := match chunk.usage with
                       | some u => convertOpenAIUsageToClaude (some u)
                       | none => zeroClaudeUsage }, ?_⟩
    by_cases hm : st.messageId = "" <;>
      simp [hm, hs, List.countP_append, List.countP_cons, isStartOrPing,
        processChoices_no_startOrPing] <;>
      (intro hu; simp [hu])
  constructor
  · intro hs
    by_cases hm : st.messageId = "" <;>
      simp [hm, hs, processChoices_no_startOrPing]
  · by_cases hm : st.messageId = "" <;>
      by_cases hs : st.sentMessageStart <;>
      simp [hm, hs, processChoices_sent]

/-- C8 witness: applying the message-start theorem to the fresh state and
a usage-free chunk. -/
theorem c8_message_start_once_witness :
    (convertOpenAIStreamToClaude 0 c1TextChunk createStreamState).2.sentMessageStart = true ∧
    (convertOpenAIStreamToClaude 0 c1TextChunk createStreamState).1.countP isStartOrPing = 2 := by
  refine ⟨(c8_message_start_once 0 c1TextChunk createStreamState).2.2, ?_⟩
  obtain ⟨p, -, -, -, hc⟩ :=
    (c8_message_start_once 0 c1TextChunk createStreamState).1 rfl
  exact hc

/-- C8 counterexample: the claim says message_start carries zeroed usage
regardless of what the first chunk contains; a first chunk that carries a
usage report yields a message_start whose usage is the converted report,
not the zeroed counters. -/
theorem c8_counterexample :
    (convertOpenAIStreamToClaude 0 c8UsageChunk createStreamState).1 =
      [ClaudeStreamEvent.messageStart
        { id := "msg_0", model := "gpt-4",
          usage := { input_tokens := 100, output_tokens := 10,
                     cache_read_input_tokens := none,
                     cache_creation_input_tokens := none,
                     server_tool_use := none } },
       ClaudeStreamEvent.ping] ∧
    ({ input_tokens := 100, output_tokens := 10, cache_read_input_tokens := none,
       cache_creation_input_tokens := none, server_tool_use := none } : ClaudeUsage) ≠
      zeroClaudeUsage := by
  exact ⟨rfl, by decide⟩

/-- C3 (amended): the request translator performs no validation of the
messages list. With an EMPTY messages list it raises no error and still
produces a provider request, preserving the model and carrying exactly
the converted system messages (none when no system content is present).
With an ABSENT messages list it does fail and no provider request is
produced, but with a TypeError thrown by the for-of loop iterating over
undefined, not with a ValidationError (no ValidationError exists in the
code). -/
theorem c3_empty_or_absent_messages (req : ClaudeAnyContentRequest) :
    (req.messages = some [] →
      ∃ r : OpenAIRequest,
        convertClaudeRequestToOpenAI req = some r ∧
        r.model = req.model ∧
        r.messages =
          (match req.system with
           | some s => if s.length > 0 then convertClaudeSystemToOpenAI s else []
           | none => [])) ∧
    (req.messages = none → convertClaudeRequestToOpenAI req = none) := by
  constructor
  · intro h
    unfold convertClaudeRequestToOpenAI
    rw [h]
    exact ⟨_, rfl, rfl, by simp [convertClaudeMessagesToOpenAI]⟩
  · intro h
    unfold convertClaudeRequestToOpenAI
    rw [h]

/-- C3 witness: the translator applied to a concrete empty-messages
request produces a provider request with the model preserved and no
messages, and applied to a concrete absent-messages request produces
nothing. -/
theorem c3_empty_or_absent_messages_witness :
    (∃ r : OpenAIRequest,
      convertClaudeRequestToOpenAI c3Request = some r ∧
      r.model = "m" ∧ r.messages = []) ∧
    convertClaudeRequestToOpenAI c3AbsentRequest = none := by
  constructor
  · obtain ⟨r, hr, hm, hmsgs⟩ := (c3_empty_or_absent_messages c3Request).1 rfl
    exact ⟨r, hr, hm, hmsgs⟩
  · exact (c3_empty_or_absent_messages c3AbsentRequest).2 rfl

/-- C3 counterexample: the claim says an empty messages list fails with a
ValidationError and no provider request is produced; the translator
instead returns this complete provider request. -/
theorem c3_counterexample :
    convertClaudeRequestToOpenAI c3Request =
      some { model := "m", messages := [], stream := none, max_completion_tokens := none,
             temperature := none, top_p := none, tools := none, tool_choice := none,
             stop := none, stream_options_include_usage := none } := by
  rfl

/-- C4 (amended): the tool-choice mapping sends a falsy value (absent or
the empty string) to auto, the string any and the object of type any to
required, the object of type tool with a truthy name to the
forced-function shape, the object of type tool without a truthy name and
every other object to auto, and every other STRING through verbatim (so
none maps to none, not to auto). -/
theorem c4_tool_choice_mapping :
    convertClaudeToolChoiceToOpenAI ClaudeToolChoice.undef = OpenAIToolChoice.str "auto" ∧
    convertClaudeToolChoiceToOpenAI (ClaudeToolChoice.str "") = OpenAIToolChoice.str "auto" ∧
    convertClaudeToolChoiceToOpenAI (ClaudeToolChoice.str "any") =
      OpenAIToolChoice.str "required" ∧
    (∀ s : String, s ≠ "" → s ≠ "any" →
      convertClaudeToolChoiceToOpenAI (ClaudeToolChoice.str s) = OpenAIToolChoice.str s) ∧
    (∀ name : Option String,
      convertClaudeToolChoiceToOpenAI (ClaudeToolChoice.obj (some "any") name) =
        OpenAIToolChoice.str "required") ∧
    (∀ n : String, n ≠ "" →
      convertClaudeToolChoiceToOpenAI (ClaudeToolChoice.obj (some "tool") (some n)) =
        OpenAIToolChoice.function n) ∧
    convertClaudeToolChoiceToOpenAI (ClaudeToolChoice.obj (some "tool") (some "")) =
      OpenAIToolChoice.str "auto" ∧
    convertClaudeToolChoiceToOpenAI (ClaudeToolChoice.obj (some "tool") none) =
      OpenAIToolChoice.str "auto" ∧
    (∀ ty name, ty ≠ some "tool" → ty ≠ some "any" →
      convertClaudeToolChoiceToOpenAI (ClaudeToolChoice.obj ty name) =
        OpenAIToolChoice.str "auto") := by
  refine ⟨rfl, rfl, rfl, ?_, ?_, ?_, rfl, rfl, ?_⟩
  · intro s h1 h2
    simp [convertClaudeToolChoiceToOpenAI, h1, h2]
  · intro name
    simp [convertClaudeToolChoiceToOpenAI]
  · intro n h
    simp [convertClaudeToolChoiceToOpenAI, h]
  · intro ty name h1 h2
    by_cases h3 : ty = some "auto" <;>
      simp [convertClaudeToolChoiceToOpenAI, h1, h2, h3]

/-- C4 witness: the pass-through conjunct applied to the string none. -/
theorem c4_tool_choice_mapping_witness :
    convertClaudeToolChoiceToOpenAI (ClaudeToolChoice.str "none") =
      OpenAIToolChoice.str "none" :=
  c4_tool_choice_mapping.2.2.2.1 "none" (by decide) (by decide)

/-- C4 counterexample: the claim says every tool_choice other than any and
the forced-tool object (including the string none) maps to auto; the
string none instead passes through verbatim. -/
theorem c4_counterexample :
    convertClaudeToolChoiceToOpenAI (ClaudeToolChoice.str "none") =
      OpenAIToolChoice.str "none" ∧
    OpenAIToolChoice.str "none" ≠ OpenAIToolChoice.str "auto" := by
  exact ⟨rfl, by decide⟩

/-- C6: feeding the scanner the bytes of one content object split across
two buffer appends, with an identical replayed object following in the
second append, yields no event from the incomplete first read (the split
object is held in the buffer) and exactly one content event with payload
Hello from the second (the identical consecutive payload is
suppressed). -/
theorem c6_split_read_dedup :
    (feed initAwsScanState c6Chunk1).1 = [] ∧
    (feed initAwsScanState c6Chunk1).2.buffer = c6Chunk1 ∧
    (feed (feed initAwsScanState c6Chunk1).2 c6Chunk2).1 =
      [ScanEvent.content (Js.str "Hello")] := by
  refine ⟨rfl, rfl, rfl⟩

/-- C9 (amended): a JSON-typed body that fails to parse or convert and a
body with neither a JSON nor a text/plain content type degrade to an
api_error carrying the raw HTTP status line; a text/plain body degrades to
an api_error carrying the body text instead of the status line. -/
theorem c9_error_translator_fallbacks (resp : HttpErrorResponse) :
    ((∃ ct, resp.contentType = some ct ∧ strIncludes ct "application/json" = true) →
      (match jsonParse resp.body with
       | some v => convertOpenAIErrorToClaude v
       | none => none) = none →
      handleOpenAIErrorResponse resp = statusLineApiError resp) ∧
    ((∃ ct, resp.contentType = some ct ∧ strIncludes ct "application/json" = false ∧
        strIncludes ct "text/plain" = true) →
      handleOpenAIErrorResponse resp =
        { error := { type := Js.str "api_error", message := Js.str resp.body,
                     param := none, code := none } }) ∧
    ((∀ ct, resp.contentType = some ct →
        strIncludes ct "application/json" = false ∧ strIncludes ct "text/plain" = false) →
      handleOpenAIErrorResponse resp = statusLineApiError resp) := by
  refine ⟨?_, ?_, ?_⟩
  · rintro ⟨ct, hct, hjson⟩ hfail
    unfold handleOpenAIErrorResponse
    rw [hct]
    simp only [hjson, if_true]
    rcases hp : jsonParse resp.body with _ | v
    · simp
    · rw [hp] at hfail
      simp only at hfail
      simp [hfail]
  · rintro ⟨ct, hct, hjson, hplain⟩
    unfold handleOpenAIErrorResponse
    rw [hct]
    simp [hjson, hplain]
  · intro hall
    unfold handleOpenAIErrorResponse
    rcases hct : resp.contentType with _ | ct
    · rfl
    · obtain ⟨h1, h2⟩ := hall ct hct
      simp [h1, h2]

/-- C9 witness: the no-content-type conjunct applied to a concrete
response. -/
theorem c9_error_translator_fallbacks_witness :
    handleOpenAIErrorResponse c9NoTypeResponse = statusLineApiError c9NoTypeResponse :=
  (c9_error_translator_fallbacks c9NoTypeResponse).2.2 (fun ct h => by simp [c9NoTypeResponse] at h)

/-- C9 counterexample: the claim says every non-JSON body degrades to an
api_error whose message carries the raw HTTP status line; a text/plain
body instead carries the body text, which differs from the status line. -/
theorem c9_counterexample :
    (handleOpenAIErrorResponse c9PlainResponse).error.type = Js.str "api_error" ∧
    (handleOpenAIErrorResponse c9PlainResponse).error.message =
      Js.str "upstream says no" ∧
    (statusLineApiError c9PlainResponse).error.message =
      Js.str "HTTP 503: Service Unavailable" ∧
    ("upstream says no" : String) ≠ "HTTP 503: Service Unavailable" := by
  exact ⟨rfl, rfl, rfl, by decide⟩

/-! ## Helper lemmas about the request translator -/

/-- A block whose type is not tool_use yields no tool call. -/
theorem toolCallOf_eq_none (c : ClaudeContent) (h : c.type ≠ "tool_use") :
    toolCallOf c = none := by
  unfold toolCallOf
  simp [h]

/-- A well-formed tool_use block yields a tool call. -/
theorem toolCallOf_isSome (c : ClaudeContent) (h : isWellFormedToolUse c = true) :
    (toolCallOf c).isSome := by
  unfold isWellFormedToolUse at h
  simp only [Bool.and_eq_true, beq_iff_eq] at h
  obtain ⟨⟨⟨h1, h2⟩, h3⟩, h4⟩ := h
  unfold toolCallOf
  simp [h1, h2, h3, h4]

/-- A tool_result block yields a role-tool message. -/
theorem toolMessageOf_isSome (c : ClaudeContent) (h : c.type = "tool_result") :
    (toolMessageOf c).isSome := by
  unfold toolMessageOf
  simp [h]

/-- Every message yielded by the tool_result case has role tool. -/
theorem toolMessageOf_role (c : ClaudeContent) (m : OpenAIMessage)
    (h : toolMessageOf c = some m) : m.role = "tool" := by
  unfold toolMessageOf at h
  by_cases ht : c.type = "tool_result"
  · simp only [ht, if_true] at h
    cases h
    rfl
  · simp [ht] at h

/-- The tool messages of a converted content array are exactly the
tool_result blocks in order, each correlated by its tool-use id. -/
theorem toolMessages_correlation (cs : List ClaudeContent) :
    (cs.filterMap toolMessageOf).map (fun m => m.tool_call_id) =
      (cs.filter (fun c => ClaudeContent.type c == "tool_result")).map
        (fun c => some (strOr (ClaudeContent.tool_use_id c) "")) := by
  induction cs with
  | nil => rfl
  | cons c rest ih =>
    by_cases h : c.type = "tool_result" <;>
      simp [toolMessageOf, h, List.filterMap_cons, List.filter_cons, ih]

/-- A filterMap over a list holding an element the function keeps is
non-empty. -/
theorem filterMap_ne_nil_of_mem {α β : Type} (f : α → Option β) (l : List α) (a : α)
    (ha : a ∈ l) (hf : (f a).isSome) : l.filterMap f ≠ [] := by
  intro hnil
  rw [List.filterMap_eq_nil_iff] at hnil
  rw [hnil a ha] at hf
  simp at hf

/-- Patching the signature of the first tool call preserves emptiness. -/
theorem patchFirstSignature_ne_nil (tcs : List ToolCall) (sig : Option String)
    (h : tcs ≠ []) : patchFirstSignature tcs sig ≠ [] := by
  cases tcs with
  | nil => exact absurd rfl h
  | cons tc rest =>
    simp only [patchFirstSignature]
    split <;> simp

/-- The content/tool_call message built for a content array keeps the
message role and carries the (non-empty) tool calls. -/
theorem mainMessage_fields (role : String) (r : ConvertedContent)
    (h : r.toolCalls ≠ []) :
    (mainMessage role r).role = role ∧ (mainMessage role r).tool_calls ≠ some [] := by
  refine ⟨rfl, ?_⟩
  unfold mainMessage
  rcases r.thinking with _ | th
  · simpa using h
  · by_cases hc : strTruthy th.signature = true ∧ r.toolCalls.length > 0
    · simpa [hc] using patchFirstSignature_ne_nil r.toolCalls th.signature h
    · simpa [hc] using h

/-- Per-message emission splits over message-list concatenation. -/
theorem convertClaudeMessagesToOpenAI_append (l1 l2 : List ClaudeMessage) :
    convertClaudeMessagesToOpenAI (l1 ++ l2) =
      convertClaudeMessagesToOpenAI l1 ++ convertClaudeMessagesToOpenAI l2 := by
  induction l1 with
  | nil => rfl
  | cons m rest ih => simp [convertClaudeMessagesToOpenAI, ih]

/-- A thinking block contributes no typed content part, no tool call and
no tool message. -/
theorem thinking_block_contributes_nothing (c : ClaudeContent)
    (h : c.type = "thinking") :
    messageContentOf c = none ∧ toolCallOf c = none ∧ toolMessageOf c = none := by
  unfold messageContentOf toolCallOf toolMessageOf
  simp [h]

/-- C5: for a Claude message whose content array holds a tool_result
block: when it also holds a (well-formed) tool_use block, the emission is
the content/tool_call message first, then the role-tool result messages;
when it holds no tool_use block at all, the role-tool result messages come
first, followed by the content message exactly when there are typed
content parts; in every case the tool messages all have role tool and are
correlated, in order, by the originating tool-use ids. -/
theorem c5_tool_result_ordering (role : String) (cs : List ClaudeContent)
    (hres : ∃ c ∈ cs, ClaudeContent.type c = "tool_result") :
    ((∃ c ∈ cs, isWellFormedToolUse c = true) →
      convertOneClaudeMessage { role := role, content := ClaudeMessageContent.arr cs } =
        mainMessage role (convertClaudeContentArray cs role) ::
          (convertClaudeContentArray cs role).toolMessages ∧
      (convertClaudeContentArray cs role).toolMessages ≠ [] ∧
      (mainMessage role (convertClaudeContentArray cs role)).role = role ∧
      (mainMessage role (convertClaudeContentArray cs role)).tool_calls ≠ some []) ∧
    ((∀ c ∈ cs, ClaudeContent.type c ≠ "tool_use") →
      convertOneClaudeMessage { role := role, content := ClaudeMessageContent.arr cs } =
        (convertClaudeContentArray cs role).toolMessages ++
          (if (cs.filterMap messageContentOf).length > 0 then
            [mainMessage role (convertClaudeContentArray cs role)]
          else [])) ∧
    (∀ m ∈ (convertClaudeContentArray cs role).toolMessages, m.role = "tool") ∧
    ((convertClaudeContentArray cs role).toolMessages.map (fun m => m.tool_call_id) =
      (cs.filter (fun c => ClaudeContent.type c == "tool_result")).map
        (fun c => some (strOr (ClaudeContent.tool_use_id c) ""))) := by
  obtain ⟨cr, hcr, htr⟩ := hres
  have htm : (convertClaudeContentArray cs role).toolMessages ≠ [] :=
    filterMap_ne_nil_of_mem toolMessageOf cs cr hcr (toolMessageOf_isSome cr htr)
  refine ⟨?_, ?_, ?_, ?_⟩
  · rintro ⟨cu, hcu, hwf⟩
    have htc : (convertClaudeContentArray cs role).toolCalls ≠ [] :=
      filterMap_ne_nil_of_mem toolCallOf cs cu hcu (toolCallOf_isSome cu hwf)
    obtain ⟨hrole, hcalls⟩ := mainMessage_fields role (convertClaudeContentArray cs role) htc
    refine ⟨?_, htm, hrole, hcalls⟩
    unfold convertOneClaudeMessage
    simp [List.length_pos, htm, htc]
  · intro hnone
    have htc : (convertClaudeContentArray cs role).toolCalls = [] := by
      simp only [convertClaudeContentArray]
      rw [List.filterMap_eq_nil_iff]
      intro c hc
      exact toolCallOf_eq_none c (hnone c hc)
    have hcont : (convertClaudeContentArray cs role).content =
        if (cs.filterMap messageContentOf).length > 0 then
          some (cs.filterMap messageContentOf)
        else none := rfl
    unfold convertOneClaudeMessage
    by_cases hmc : (cs.filterMap messageContentOf).length > 0 <;>
      simp [List.length_pos, htc, hcont, hmc, htm]
  · intro m hm
    simp only [convertClaudeContentArray] at hm
    obtain ⟨c, hc, hcm⟩ := List.mem_filterMap.mp hm
    exact toolMessageOf_role c m hcm
  · exact toolMessages_correlation cs

/-- C5 witness: the mixed array emits the content/tool_call message first
and the result-only array emits the tool message first. -/
theorem c5_tool_result_ordering_witness :
    convertOneClaudeMessage { role := "assistant", content := ClaudeMessageContent.arr c5MixedBlocks } =
      mainMessage "assistant" (convertClaudeContentArray c5MixedBlocks "assistant") ::
        (convertClaudeContentArray c5MixedBlocks "assistant").toolMessages ∧
    convertOneClaudeMessage { role := "user", content := ClaudeMessageContent.arr c5ResultOnlyBlocks } =
      (convertClaudeContentArray c5ResultOnlyBlocks "user").toolMessages ++
        [mainMessage "user" (convertClaudeContentArray c5ResultOnlyBlocks "user")] := by
  constructor
  · exact ((c5_tool_result_ordering "assistant" c5MixedBlocks
      ⟨c5ResultBlock, List.mem_cons_self _ _, by decide⟩).1
      ⟨c5UseBlock, List.mem_cons_of_mem _ (List.mem_cons_self _ _), by decide⟩).1
  · have h := (c5_tool_result_ordering "user" c5ResultOnlyBlocks
      ⟨c5ResultBlock, List.mem_cons_self _ _, by decide⟩).2.1 (by decide)
    rw [h]
    rfl

/-- C10: a Claude message whose content array holds only thinking blocks
produces no provider message at all (the reasoning text and its signature
are dropped), and removing it from a message list leaves the emission
unchanged. -/
theorem c10_thinking_only_dropped (msg : ClaudeMessage) (cs : List ClaudeContent)
    (hc : msg.content = ClaudeMessageContent.arr cs)
    (hall : ∀ c ∈ cs, ClaudeContent.type c = "thinking") :
    convertOneClaudeMessage msg = [] ∧
    (∀ pre post : List ClaudeMessage,
      convertClaudeMessagesToOpenAI (pre ++ msg :: post) =
        convertClaudeMessagesToOpenAI pre ++ convertClaudeMessagesToOpenAI post) := by
  have hmc : cs.filterMap messageContentOf = [] := by
    rw [List.filterMap_eq_nil_iff]
    intro c hcm
    exact (thinking_block_contributes_nothing c (hall c hcm)).1
  have htc : cs.filterMap toolCallOf = [] := by
    rw [List.filterMap_eq_nil_iff]
    intro c hcm
    exact (thinking_block_contributes_nothing c (hall c hcm)).2.1
  have htm : cs.filterMap toolMessageOf = [] := by
    rw [List.filterMap_eq_nil_iff]
    intro c hcm
    exact (thinking_block_contributes_nothing c (hall c hcm)).2.2
  have hmain : convertOneClaudeMessage msg = [] := by
    unfold convertOneClaudeMessage
    rw [hc]
    simp [convertClaudeContentArray, hmc, htc, htm]
  refine ⟨hmain, ?_⟩
  intro pre post
  rw [convertClaudeMessagesToOpenAI_append]
  show _ = convertClaudeMessagesToOpenAI pre ++ convertClaudeMessagesToOpenAI post
  have : convertClaudeMessagesToOpenAI (msg :: post) =
      convertOneClaudeMessage msg ++ convertClaudeMessagesToOpenAI post := rfl
  rw [this, hmain]
  rfl

/-- C10 witness: a concrete assistant message holding one signed thinking
block emits nothing. -/
theorem c10_thinking_only_dropped_witness :
    convertOneClaudeMessage c10ThinkingMessage = [] :=
  (c10_thinking_only_dropped c10ThinkingMessage
    [thinkingBlock "private chain of thought" (some "sig-abc")] rfl
    (by intro c hc; simp at hc; subst hc; rfl)).1

end Anythropic
